import Mathlib

/-!
# DFRobot_LoRaWAN_ESP32S3: the `LoRaWAN_Node` session layer

A shallow embedding of `src/src/DFRobot_LoRaWAN.cpp`.  The process-wide variables of the
translation unit (`LmHandlerParams`, the callback slots, the worker handles) together with the
externally owned protocol engine form one explicit `State`; every member function of
`LoRaWAN_Node` is a function from a state to a result and a new state.  The protocol engine,
the radio driver and the RTOS are not part of the translation unit: what they answer is taken
as a parameter (`Env`), and the calls made into them are recorded in `State.calls`.
-/

namespace DFRobot_LoRaWAN

/-! ## Types of the protocol engine used by the source -/

/-- The enumerators of `LoRaMacRegion_t` named in the source; every other region of the
enumeration is `LORAMAC_REGION_OTHER`. -/
inductive LoRaMacRegion_t
  | LORAMAC_REGION_AU915
  | LORAMAC_REGION_CN470
  | LORAMAC_REGION_EU868
  | LORAMAC_REGION_US915
  | LORAMAC_REGION_OTHER (code : Nat)
  deriving DecidableEq, Repr

/-- The network activation kinds of `ActivationType_t`. -/
inductive ActivationType_t
  | ACTIVATION_TYPE_NONE
  | ACTIVATION_TYPE_ABP
  | ACTIVATION_TYPE_OTAA
  deriving DecidableEq, Repr

/-- The device classes of `DeviceClass_t`. -/
inductive DeviceClass_t
  | CLASS_A
  | CLASS_B
  | CLASS_C
  deriving DecidableEq, Repr

/-- A `LoRaMacStatus_t`: the source only ever compares it with `LORAMAC_STATUS_OK`, so every
other enumerator is `LORAMAC_STATUS_ERROR` with its code. -/
inductive LoRaMacStatus_t
  | LORAMAC_STATUS_OK
  | LORAMAC_STATUS_ERROR (code : Nat)
  deriving DecidableEq, Repr

/-- A `LmHandlerErrorStatus_t`: the source only ever compares it with
`LORAMAC_HANDLER_SUCCESS`. -/
inductive LmHandlerErrorStatus_t
  | LORAMAC_HANDLER_SUCCESS
  | LORAMAC_HANDLER_ERROR (code : Int)
  deriving DecidableEq, Repr

/-- The request kinds of `Mcps_t`. -/
inductive Mcps_t
  | MCPS_UNCONFIRMED
  | MCPS_CONFIRMED
  | MCPS_MULTICAST
  | MCPS_PROPRIETARY
  deriving DecidableEq, Repr

/-- A `void *buffer` argument: `none` is `NULL`, `some bytes` points at `bytes`. -/
abbrev BufferPtr := Option (List Nat)

/-- A function pointer held in a callback slot: `none` is `NULL`, `some h` is the handler
identified by `h`. -/
abbrev Handler := Option Nat

/-- The `McpsReq_t` handed to `LoRaMacMcpsRequest`.  The source declares it on the stack without
an initialiser, so a member it never assigns has an indeterminate value: `fPort` and `NbTrials`
are `none` in that case.  `ReqType` is the member `Type`. -/
structure McpsReq_t where
  ReqType : Mcps_t
  fPort : Option Nat
  fBuffer : BufferPtr
  fBufferSize : Nat
  NbTrials : Option Nat
  Datarate : Int
  deriving DecidableEq, Repr

/-- The members of `LoRaMacNvmData_t` that `setSubBand` reads and writes:
`MacGroup2.Region`, `RegionGroup2.ChannelsDefaultMask`, `RegionGroup2.ChannelsMask` and
`RegionGroup1.ChannelsMaskRemaining`, each mask an array of 16-bit words. -/
structure LoRaMacNvmData_t where
  Region : LoRaMacRegion_t
  ChannelsDefaultMask : List Nat
  ChannelsMask : List Nat
  ChannelsMaskRemaining : List Nat
  deriving DecidableEq, Repr

/-- The protocol engine as this layer sees it: the entries of its information base that the
source reads or writes, and `internal` for everything else it holds. -/
structure LoRaMac where
  NetworkActivation : ActivationType_t
  ChannelsDatarate : Int
  Contexts : LoRaMacNvmData_t
  internal : Nat
  deriving DecidableEq, Repr

/-- The members of `LmHandlerParams_t` that the constructors and `init` assign, and `NbTrials`. -/
structure LmHandlerParams_t where
  AdrEnable : Bool
  TxDatarate : Int
  DutyCycleEnabled : Bool
  TxEirp : Int
  joinType : ActivationType_t
  DevEui : List Nat
  JoinEui : List Nat
  AppKey : List Nat
  DevAddr : Nat
  AppSKey : List Nat
  NwkSKey : List Nat
  NbTrials : Nat
  Class : DeviceClass_t
  deriving DecidableEq, Repr

/-- The region selected at build time (`#ifdef REGION_EU868` / `REGION_CN470` /
`REGION_US915`); exactly one defines `loraWanRegion`. -/
inductive Build
  | REGION_EU868
  | REGION_CN470
  | REGION_US915
  deriving DecidableEq, Repr

/-- A call made into the protocol engine, recorded in the order it is made. -/
inductive Call
  | LmHandlerInit (params : LmHandlerParams_t)
  | LmHandlerJoin
  | LoRaMacMcpsRequest (req : McpsReq_t)
  deriving DecidableEq, Repr

/-- What the collaborators outside the translation unit answer: the engine's
entry points as functions of the engine state.  `DR_5`, `DR_6`, `DR_7` are the data-rate
macros of the region header.  `xTaskCreate` is the value the RTOS returns for the worker creation
together with the handle it stores through `&loraTaskHandle` (`none`: nothing stored). -/
structure Env where
  DR_5 : Int
  DR_6 : Int
  DR_7 : Int
  xSemaphoreCreateBinary : Option Nat
  xTaskCreate : Int × Option Nat
  LmHandlerInit : LmHandlerParams_t → LoRaMac → LmHandlerErrorStatus_t × LoRaMac
  LmHandlerJoin : LmHandlerParams_t → LoRaMac → LoRaMac
  LoRaMacQueryTxPossible : LoRaMac → Nat → LoRaMacStatus_t
  LoRaMacMcpsRequest : LoRaMac → McpsReq_t → LoRaMacStatus_t × LoRaMac

/-- The process-wide state: the engine, the file-scope variables of the translation unit and
the record of calls made into the engine. -/
structure State where
  mac : LoRaMac
  LmHandlerParams : LmHandlerParams_t
  loraJoinCb : Handler
  rxCb : Handler
  txCb : Handler
  loraIntSem : Option Nat
  loraTaskHandle : Option Nat
  calls : List Call
  deriving DecidableEq, Repr

/-! ## The engine's information base -/

/-- Modelled from the spec: `LoRaMacMibGetRequestConfirm` with `Type = MIB_NETWORK_ACTIVATION`.
The information base is the engine's key-typed read/write store; the get reads the entry. -/
def LoRaMacMibGetRequestConfirm_NetworkActivation (mac : LoRaMac) : ActivationType_t :=
  mac.NetworkActivation

/-- Modelled from the spec: `LoRaMacMibGetRequestConfirm` with `Type = MIB_CHANNELS_DATARATE`. -/
def LoRaMacMibGetRequestConfirm_ChannelsDatarate (mac : LoRaMac) : Int :=
  mac.ChannelsDatarate

/-- Modelled from the spec: `LoRaMacMibGetRequestConfirm` with `Type = MIB_NVM_CTXS`, which
hands out the engine's mutable non-volatile context. -/
def LoRaMacMibGetRequestConfirm_Contexts (mac : LoRaMac) : LoRaMacNvmData_t :=
  mac.Contexts

/-- Modelled from the spec: `LoRaMacMibSetRequestConfirm` with `Type = MIB_NETWORK_ACTIVATION`:
the entry is overwritten and read back by the next get. -/
def LoRaMacMibSetRequestConfirm_NetworkActivation (mac : LoRaMac) (v : ActivationType_t) :
    LoRaMac :=
  { mac with NetworkActivation := v }

/-! ## Channel masks -/

/-- A value stored into a `uint16_t`. -/
def toUint16 (x : Nat) : Nat := x % 65536

/-- Modelled from the spec: `RegionCommonChanMaskCopy` of the engine's region module, which the
source calls to overwrite a channel mask: word `i` of the destination becomes word `i` of the
source for every `i < len`. -/
def RegionCommonChanMaskCopy (channelsMaskDest channelsMaskSrc : List Nat) (len : Nat) :
    List Nat :=
  (List.range len).foldl (fun dest i => dest.set i (channelsMaskSrc.getD i 0)) channelsMaskDest

/-- The local `subBandChannelMask[6]` and `maxMask` of `setSubBand` when the `switch` on the
region falls through to the copies, `none` when it returns `false`.  `subBand - 1` is computed
after the range check at the top of `setSubBand`, so it never goes below zero. -/
def subBandChannelMask (region : LoRaMacRegion_t) (subBand : Nat) : Option (List Nat × Nat) :=
  let zero : List Nat := List.replicate 6 0
  match region with
  | .LORAMAC_REGION_CN470 =>
    if subBand > 12 then none
    else
      some (zero.set ((subBand - 1) / 2)
        (toUint16 (if (subBand - 1) % 2 ≠ 0 then 0xFF00 else 0x00FF)), 6)
  | .LORAMAC_REGION_AU915 | .LORAMAC_REGION_US915 =>
    if subBand > 8 then none
    else
      let mask := zero.set ((subBand - 1) / 2)
        (toUint16 (if (subBand - 1) % 2 ≠ 0 then 0xFF00 else 0x00FF))
      some (mask.set 4 (toUint16 (1 <<< (subBand - 1))), 6)
  | _ => none

/-- The member function `LoRaWAN_Node::setSubBand`. -/
def LoRaWAN_Node.setSubBand (s : State) (subBand : Nat) : Bool × State :=
  if subBand < 1 ∨ subBand > 8 then (false, s)
  else
    let nvm := LoRaMacMibGetRequestConfirm_Contexts s.mac
    match subBandChannelMask nvm.Region subBand with
    | none => (false, s)
    | some (mask, maxMask) =>
      let nvm1 := { nvm with
        ChannelsDefaultMask := RegionCommonChanMaskCopy nvm.ChannelsDefaultMask mask maxMask }
      let nvm2 := { nvm1 with
        ChannelsMask := RegionCommonChanMaskCopy nvm1.ChannelsMask mask maxMask }
      let nvm3 := { nvm2 with
        ChannelsMaskRemaining :=
          RegionCommonChanMaskCopy nvm2.ChannelsMaskRemaining mask maxMask }
      (true, { s with mac := { s.mac with Contexts := nvm3 } })

/-- Channel `c` is enabled in a mask: bit `c mod 16` of word `c div 16` is set. -/
def channelEnabled (mask : List Nat) (c : Nat) : Bool :=
  (mask.getD (c / 16) 0 >>> (c % 16)) % 2 == 1

/-- The channels below 96 that a mask enables. -/
def enabledChannels (mask : List Nat) : List Nat :=
  (List.range 96).filter (channelEnabled mask)

/-! ## Session state queries, join and transmission -/

/-- The member function `LoRaWAN_Node::isJoined`. -/
def LoRaWAN_Node.isJoined (s : State) : Bool :=
  if LoRaMacMibGetRequestConfirm_NetworkActivation s.mac = .ACTIVATION_TYPE_NONE then false
  else true

/-- The member function `LoRaWAN_Node::join`.  The effect of `LmHandlerJoin` on the engine is
the one `env` gives. -/
def LoRaWAN_Node.join (env : Env) (s : State) (callback : Handler) : Int × State :=
  let s1 := { s with loraJoinCb := callback }
  if LoRaWAN_Node.isJoined s1 then (0, s1)
  else
    (1, { s1 with
      mac := env.LmHandlerJoin s1.LmHandlerParams s1.mac
      calls := s1.calls ++ [Call.LmHandlerJoin] })

/-- The member function `LoRaWAN_Node::sendConfirmedPacket`. -/
def LoRaWAN_Node.sendConfirmedPacket (env : Env) (s : State) (port : Nat) (buffer : BufferPtr)
    (size : Nat) : Bool × State :=
  let datarate := LoRaMacMibGetRequestConfirm_ChannelsDatarate s.mac
  let mcpsReq : McpsReq_t :=
    if env.LoRaMacQueryTxPossible s.mac size ≠ .LORAMAC_STATUS_OK then
      { ReqType := .MCPS_UNCONFIRMED, fPort := none, fBuffer := none, fBufferSize := 0,
        NbTrials := none, Datarate := datarate }
    else
      { ReqType := .MCPS_CONFIRMED, fPort := some port, fBuffer := buffer, fBufferSize := size,
        NbTrials := some s.LmHandlerParams.NbTrials, Datarate := datarate }
  let r := env.LoRaMacMcpsRequest s.mac mcpsReq
  let s1 := { s with mac := r.2, calls := s.calls ++ [Call.LoRaMacMcpsRequest mcpsReq] }
  if r.1 = .LORAMAC_STATUS_OK then (true, s1) else (false, s1)

/-- The member function `LoRaWAN_Node::sendUnconfirmedPacket`. -/
def LoRaWAN_Node.sendUnconfirmedPacket (env : Env) (s : State) (port : Nat)
    (buffer : BufferPtr) (size : Nat) : Bool × State :=
  let datarate := LoRaMacMibGetRequestConfirm_ChannelsDatarate s.mac
  let mcpsReq : McpsReq_t :=
    if env.LoRaMacQueryTxPossible s.mac size ≠ .LORAMAC_STATUS_OK then
      { ReqType := .MCPS_UNCONFIRMED, fPort := none, fBuffer := none, fBufferSize := 0,
        NbTrials := none, Datarate := datarate }
    else
      { ReqType := .MCPS_UNCONFIRMED, fPort := some port, fBuffer := buffer,
        fBufferSize := size, NbTrials := none, Datarate := datarate }
  let r := env.LoRaMacMcpsRequest s.mac mcpsReq
  let s1 := { s with mac := r.2, calls := s.calls ++ [Call.LoRaMacMcpsRequest mcpsReq] }
  if r.1 = .LORAMAC_STATUS_OK then (false, s1) else (true, s1)

/-- The empty frame that flushes queued MAC commands: type unconfirmed, null buffer, size 0,
at the engine's current channel data rate, port never assigned. -/
def flushFrame (s : State) : McpsReq_t :=
  { ReqType := .MCPS_UNCONFIRMED, fPort := none, fBuffer := none, fBufferSize := 0,
    NbTrials := none, Datarate := s.mac.ChannelsDatarate }

/-- The caller's payload as a confirmed request at the engine's current channel data rate. -/
def confirmedFrame (s : State) (port : Nat) (buffer : BufferPtr) (size : Nat) : McpsReq_t :=
  { ReqType := .MCPS_CONFIRMED, fPort := some port, fBuffer := buffer, fBufferSize := size,
    NbTrials := some s.LmHandlerParams.NbTrials, Datarate := s.mac.ChannelsDatarate }

/-- The caller's payload as an unconfirmed request at the engine's current channel data
rate. -/
def unconfirmedFrame (s : State) (port : Nat) (buffer : BufferPtr) (size : Nat) : McpsReq_t :=
  { ReqType := .MCPS_UNCONFIRMED, fPort := some port, fBuffer := buffer, fBufferSize := size,
    NbTrials := none, Datarate := s.mac.ChannelsDatarate }

/-- The state after `LoRaMacMcpsRequest` was called with `req`. -/
def afterMcpsRequest (env : Env) (s : State) (req : McpsReq_t) : State :=
  { s with
    mac := (env.LoRaMacMcpsRequest s.mac req).2
    calls := s.calls ++ [Call.LoRaMacMcpsRequest req] }

/-! ## Construction and initialisation -/

/-- The library `memcpy` on byte arrays: the first `n` bytes of `dest` become those of `src`. -/
def memcpy (dest src : List Nat) (n : Nat) : List Nat :=
  src.take n ++ dest.drop n

/-- The OTAA constructor `LoRaWAN_Node::LoRaWAN_Node(devEui, appEui, appKey, classType)`. -/
def LoRaWAN_Node.LoRaWAN_Node_OTAA (s : State) (devEui appEui appKey : List Nat)
    (classType : DeviceClass_t) : State :=
  { s with LmHandlerParams := { s.LmHandlerParams with
      DevEui := memcpy s.LmHandlerParams.DevEui devEui 8
      JoinEui := memcpy s.LmHandlerParams.JoinEui appEui 8
      AppKey := memcpy s.LmHandlerParams.AppKey appKey 16
      joinType := .ACTIVATION_TYPE_OTAA
      Class := classType } }

/-- The ABP constructor `LoRaWAN_Node::LoRaWAN_Node(devAddr, nwkSKey, appSKey, classType)`. -/
def LoRaWAN_Node.LoRaWAN_Node_ABP (s : State) (devAddr : Nat) (nwkSKey appSKey : List Nat)
    (classType : DeviceClass_t) : State :=
  { s with LmHandlerParams := { s.LmHandlerParams with
      NwkSKey := memcpy s.LmHandlerParams.NwkSKey nwkSKey 16
      AppSKey := memcpy s.LmHandlerParams.AppSKey appSKey 16
      DevAddr := devAddr
      joinType := .ACTIVATION_TYPE_ABP
      Class := classType } }

/-- The function `taskLoad`: creates the event semaphore (the give and the timed take that
follow leave it empty) and the worker; `false` exactly when `xTaskCreate` returned zero. -/
def taskLoad (env : Env) (s : State) : Bool × State :=
  let s1 := { s with loraIntSem := env.xSemaphoreCreateBinary }
  let s2 := match env.xTaskCreate.2 with
    | some h => { s1 with loraTaskHandle := some h }
    | none => s1
  if env.xTaskCreate.1 = 0 then (false, s2) else (true, s2)

/-- The member function `LoRaWAN_Node::init`.  `SX126xIOInit` configures the radio pins and
touches nothing of the state.  The value `taskLoad` returns is not used by the source, and
neither is the one of `setSubBand(2)`. -/
def LoRaWAN_Node.init (build : Build) (env : Env) (s : State) (dataRate txEirp : Int)
    (adr dutyCycle : Bool) : Bool × State :=
  if build = .REGION_US915 ∧ (dataRate = env.DR_5 ∨ dataRate = env.DR_6 ∨ dataRate = env.DR_7)
  then (false, s)
  else
    let s1 := (taskLoad env s).2
    let s2 := { s1 with LmHandlerParams := { s1.LmHandlerParams with
      TxDatarate := dataRate
      TxEirp := txEirp
      AdrEnable := adr
      DutyCycleEnabled := dutyCycle } }
    let r := env.LmHandlerInit s2.LmHandlerParams s2.mac
    let s3 := { s2 with mac := r.2, calls := s2.calls ++ [Call.LmHandlerInit s2.LmHandlerParams] }
    if r.1 ≠ .LORAMAC_HANDLER_SUCCESS then (false, s3)
    else
      let s4 := if build = .REGION_US915 then (LoRaWAN_Node.setSubBand s3 2).2 else s3
      let s5 :=
        if s4.LmHandlerParams.joinType = .ACTIVATION_TYPE_ABP then
          { s4 with mac :=
              LoRaMacMibSetRequestConfirm_NetworkActivation s4.mac .ACTIVATION_TYPE_ABP }
        else s4
      (true, s5)

/-! ## Callback registration and the engine's notifications -/

/-- A value stored into a `uint8_t`. -/
def toUint8 (x : Int) : Nat := (x % 256).toNat

/-- A `uint8_t` value passed where an `int8_t` is expected. -/
def toInt8 (x : Nat) : Int := if x % 256 < 128 then (x % 256 : Nat) else (x % 256 : Nat) - 256

/-- The request kinds of `Mlme_t`: the source only tests for `MLME_JOIN`. -/
inductive Mlme_t
  | MLME_JOIN
  | MLME_OTHER (code : Nat)
  deriving DecidableEq, Repr

/-- The members of `LmHandlerJoinParams_t` that `OnJoinRequest` reads:
`CommissioningParams->IsOtaaActivation` and `Status`. -/
structure LmHandlerJoinParams_t where
  IsOtaaActivation : Bool
  Status : LmHandlerErrorStatus_t
  deriving DecidableEq, Repr

/-- The members of `LmHandlerTxParams_t` that `OnTxData` reads. -/
structure LmHandlerTxParams_t where
  AckReceived : Bool
  Datarate : Int
  TxPower : Int
  Channel : Nat
  deriving DecidableEq, Repr

/-- The members of `LmHandlerAppData_t`. -/
structure LmHandlerAppData_t where
  Port : Nat
  BufferSize : Nat
  Buffer : BufferPtr
  deriving DecidableEq, Repr

/-- The members of `LmHandlerRxParams_t` that `OnRxData` reads. -/
structure LmHandlerRxParams_t where
  Rssi : Int
  Snr : Int
  IsRevACK : Bool
  DownlinkCounter : Nat
  deriving DecidableEq, Repr

/-- One call of an application callback, with the handler called and its arguments. -/
inductive Invocation
  | joinCallback (h : Nat) (isOk : Bool) (rssi snr : Int)
  | txCB (h : Nat) (isconfirm : Bool) (datarate TxEirp : Int) (Channel : Nat)
  | rxCB (h : Nat) (buffer : BufferPtr) (size port : Nat) (rssi snr : Int) (ackReceived : Bool)
      (uplinkCounter downlinkCounter : Nat)
  deriving DecidableEq, Repr

/-- The handler an invocation calls. -/
def Invocation.handler : Invocation → Nat
  | .joinCallback h _ _ _ => h
  | .txCB h _ _ _ _ => h
  | .rxCB h _ _ _ _ _ _ _ _ => h

/-- What the engine answers to the notification handlers: the signal readings of the last
frame, the uplink frame counter, and column 1 of the rows of the region tables
`txpowerEirpEU868` and `txpowerEirpUS915`. -/
structure EventEnv where
  LoRaMacMcLastDataRssi : LoRaMac → Int
  LoRaMacMcLastDataSnr : LoRaMac → Int
  GetUplinkCounter : LoRaMac → Nat
  txpowerEirpEU868 : Int → Int
  txpowerEirpUS915 : Int → Int

/-- Modelled from the spec: `LoRaMacMibSetRequestConfirm` with `Type = MIB_CHANNELS_DATARATE`:
the entry of the information base is overwritten. -/
def LoRaMacMibSetRequestConfirm_ChannelsDatarate (mac : LoRaMac) (v : Int) : LoRaMac :=
  { mac with ChannelsDatarate := v }

/-- The member function `LoRaWAN_Node::setRxCB`. -/
def LoRaWAN_Node.setRxCB (s : State) (callback : Handler) : Bool × State :=
  if callback ≠ none then (true, { s with rxCb := callback })
  else (false, s)

/-- The member function `LoRaWAN_Node::setTxCB`. -/
def LoRaWAN_Node.setTxCB (s : State) (callback : Handler) : Bool × State :=
  if callback ≠ none then (true, { s with txCb := callback })
  else (false, s)

/-- The handler `OnMacMlmeRequest`: the application callbacks it calls and the state it
leaves.  The message it prints is not part of the state. -/
def OnMacMlmeRequest (s : State) (status : LoRaMacStatus_t) (mlmeReqType : Mlme_t) :
    List Invocation × State :=
  if mlmeReqType = .MLME_JOIN then
    if status ≠ .LORAMAC_STATUS_OK then
      match s.loraJoinCb with
      | some h => ([Invocation.joinCallback h false 0 0], s)
      | none => ([], s)
    else ([], s)
  else ([], s)

/-- The handler `OnJoinRequest`: it first sets the channel data rate of the engine to
`LmHandlerParams.TxDatarate`, then reads the last signal readings, then notifies. -/
def OnJoinRequest (ev : EventEnv) (s : State) (params : LmHandlerJoinParams_t) :
    List Invocation × State :=
  let s1 := { s with mac :=
    LoRaMacMibSetRequestConfirm_ChannelsDatarate s.mac s.LmHandlerParams.TxDatarate }
  let rssi := ev.LoRaMacMcLastDataRssi s1.mac
  let snr := ev.LoRaMacMcLastDataSnr s1.mac
  if params.IsOtaaActivation = true then
    if params.Status = .LORAMAC_HANDLER_SUCCESS then
      match s1.loraJoinCb with
      | some h => ([Invocation.joinCallback h true rssi snr], s1)
      | none => ([], s1)
    else
      match s1.loraJoinCb with
      | some h => ([Invocation.joinCallback h false rssi snr], s1)
      | none => ([], s1)
  else
    match s1.loraJoinCb with
    | some h => ([Invocation.joinCallback h true rssi snr], s1)
    | none => ([], s1)

/-- The local `txeirp` of `OnTxData`: zero, overwritten from the region table of the build. -/
def OnTxData_txeirp (build : Build) (ev : EventEnv) (TxPower : Int) : Nat :=
  match build with
  | .REGION_EU868 => toUint8 (ev.txpowerEirpEU868 TxPower)
  | .REGION_US915 => toUint8 (ev.txpowerEirpUS915 ((if TxPower < 4 then 4 else TxPower) - 4))
  | .REGION_CN470 => 0

/-- The handler `OnTxData`; `params = none` is a `NULL` pointer. -/
def OnTxData (build : Build) (ev : EventEnv) (s : State) (params : Option LmHandlerTxParams_t) :
    List Invocation × State :=
  match s.txCb, params with
  | some h, some p =>
    ([Invocation.txCB h p.AckReceived p.Datarate (toInt8 (OnTxData_txeirp build ev p.TxPower))
      p.Channel], s)
  | _, _ => ([], s)

/-- The handler `OnRxData`; `appData = none` is a `NULL` pointer.  The uplink counter is held
in a `uint16_t` local and both counters are passed as `uint16_t` arguments. -/
def OnRxData (ev : EventEnv) (s : State) (appData : Option LmHandlerAppData_t)
    (params : LmHandlerRxParams_t) : List Invocation × State :=
  match s.rxCb with
  | some h =>
    let uplinkcount := toUint16 (ev.GetUplinkCounter s.mac)
    match appData with
    | some a =>
      ([Invocation.rxCB h a.Buffer a.BufferSize a.Port params.Rssi params.Snr params.IsRevACK
        uplinkcount (toUint16 params.DownlinkCounter)], s)
    | none => ([], s)
  | none => ([], s)

/-! ## The free-slot scan of `addChannel` -/

/-- The locals of the scan loop of `addChannel`, and the bit positions `(i, j)` it has
tested so far. -/
structure ScanState where
  id : Nat
  chanIdx : Nat
  i : Nat
  j : Nat
  visited : List (Nat × Nat)
  deriving DecidableEq, Repr

/-- The `for (uint8_t k = 0; k < 96; k++)` loop of `addChannel` with `n` iterations left
(`n = 96 - k`): a set bit increments `id` and advances `(i, j)`, a clear bit stores `id` in
`chanIdx` and leaves the loop.  The locals are `uint8_t`. -/
def scanLoop (ChannelsMask : List Nat) : Nat → ScanState → ScanState
  | 0, st => st
  | n + 1, st =>
    let st1 := { st with visited := st.visited ++ [(st.i, st.j)] }
    if (ChannelsMask.getD st.i 0 >>> st.j) &&& 0x01 = 0x01 then
      let st2 := { st1 with id := (st1.id + 1) % 256 }
      if st2.j = 15 then scanLoop ChannelsMask n { st2 with j := 0, i := (st2.i + 1) % 256 }
      else scanLoop ChannelsMask n { st2 with j := (st2.j + 1) % 256 }
    else { st1 with chanIdx := st1.id }

/-- The scan of `addChannel` from its initial locals `id = chanIdx = i = j = 0`. -/
def addChannel_scan (ChannelsMask : List Nat) : ScanState :=
  scanLoop ChannelsMask 96 { id := 0, chanIdx := 0, i := 0, j := 0, visited := [] }

/-- The `ChannelAddParams_t` that `addChannel` builds: the new channel and its identifier. -/
structure ChannelAddParams_t where
  Frequency : Nat
  Rx1Frequency : Nat
  DrRange : Nat
  Band : Nat
  ChannelId : Nat
  deriving DecidableEq, Repr

/-- The member function `LoRaWAN_Node::addChannel` on the file-scope array `ChannelsMask`:
the request it builds and its result.  `DR_5` and `DR_0` are the macros of the region header,
`RegionEU868ChannelAdd` is the engine's answer, asked on the EU868 build only. -/
def LoRaWAN_Node.addChannel (build : Build) (DR_5 DR_0 : Nat)
    (RegionEU868ChannelAdd : ChannelAddParams_t → LoRaMacStatus_t) (ChannelsMask : List Nat)
    (freq : Nat) : Bool × ChannelAddParams_t :=
  let chanIdx := (addChannel_scan ChannelsMask).chanIdx
  let channelAdd : ChannelAddParams_t :=
    { Frequency := freq, Rx1Frequency := 0, DrRange := toUint8 ((DR_5 <<< 4) ||| DR_0 : Nat),
      Band := 1, ChannelId := chanIdx }
  if build = .REGION_EU868 ∧ RegionEU868ChannelAdd channelAdd = .LORAMAC_STATUS_OK then
    (true, channelAdd)
  else (false, channelAdd)

/-! ## The raw radio path: `DFRobot_LoRaRadio` -/

/-- The bandwidths of `eBandwidths_t`. -/
inductive eBandwidths_t
  | BW_125 | BW_250 | BW_500 | BW_062 | BW_041 | BW_031 | BW_020 | BW_015 | BW_010 | BW_007
  deriving DecidableEq, Repr

/-- The members of `radioEvent` that the class assigns.  `RxDone` is only ever given the
address of `loraRxCb`: `true` once it holds it. -/
structure RadioEvents_t where
  TxDone : Handler
  RxDone : Bool
  CadDone : Handler
  RxError : Handler
  deriving DecidableEq, Repr

/-- A call made into the radio driver `Radio2` or the board support, recorded in order. -/
inductive RadioCall
  | Init
  | reInitEvent
  | SetTxConfig (power : Nat) (bandwidth : eBandwidths_t) (datarate : Nat)
  | SetRxConfig (bandwidth : eBandwidths_t) (datarate : Nat)
  | SetChannel (freq : Nat)
  | Send (buffer : List Nat) (size : Nat)
  | Rx (timeout : Nat)
  | Standby
  | Sleep
  | SetCadParams (cadSymbolNum cadDetPeak cadDetMin : Nat)
  | StartCad
  | esp_deep_sleep_start
  deriving DecidableEq, Repr

/-- The variables of `DFRobot_LoRaRadio.cpp` and the private members of the class, the two
worker variables it declares `extern`, the record of driver calls, and `halted`, set once
`esp_deep_sleep_start` has been entered: it does not return. -/
structure RadioState where
  isEncryption : Bool
  dataKey : List Nat
  rxEncryptiondone : Handler
  radioEvent : RadioEvents_t
  _bandwidth : eBandwidths_t
  _txeirp : Nat
  _SF : Nat
  loraIntSem : Option Nat
  loraTaskHandle : Option Nat
  radioCalls : List RadioCall
  halted : Bool
  deriving DecidableEq, Repr

/-- The payload cipher of the engine, which is not part of the translation unit: the bytes
`LoRaMacPayloadEncrypt` and `LoRaMacPayloadDecrypt` write to their output buffer for the
arguments `buffer`, `size`, `key`, `address`, `dir` and `sequenceCounter`. -/
structure Cipher where
  LoRaMacPayloadEncrypt : List Nat → Nat → List Nat → Nat → Nat → Nat → List Nat
  LoRaMacPayloadDecrypt : List Nat → Nat → List Nat → Nat → Nat → Nat → List Nat

/-- One call of the application receive callback of the raw radio path. -/
structure RadioRxInvocation where
  h : Nat
  payload : List Nat
  size : Nat
  rssi : Int
  snr : Int
  deriving DecidableEq, Repr

/-- The function `loraRxCb`: the calls of the registered receive callback it makes. -/
def loraRxCb (cipher : Cipher) (s : RadioState) (payload : List Nat) (size : Nat)
    (rssi snr : Int) : List RadioRxInvocation :=
  match s.rxEncryptiondone with
  | none => []
  | some h =>
    if s.isEncryption = false then
      [{ h := h, payload := payload, size := size, rssi := rssi, snr := snr }]
    else
      let dataread :=
        cipher.LoRaMacPayloadDecrypt payload size s.dataKey 0xDFDFDFDF 1 0x66
      [{ h := h, payload := dataread, size := size, rssi := rssi, snr := snr }]

/-- The function `lorataskLoad`. -/
def lorataskLoad (env : Env) (s : RadioState) : Bool × RadioState :=
  let s1 := { s with loraIntSem := env.xSemaphoreCreateBinary }
  let s2 := match env.xTaskCreate.2 with
    | some h => { s1 with loraTaskHandle := some h }
    | none => s1
  if env.xTaskCreate.1 = 0 then (false, s2) else (true, s2)

/-- The member function `DFRobot_LoRaRadio::init`; the value of `lorataskLoad` is not used. -/
def DFRobot_LoRaRadio.init (env : Env) (s : RadioState) : RadioState :=
  let s1 := (lorataskLoad env s).2
  { s1 with radioCalls := s1.radioCalls ++ [RadioCall.Init] }

/-- The member function `DFRobot_LoRaRadio::setBW`. -/
def DFRobot_LoRaRadio.setBW (s : RadioState) (BW : eBandwidths_t) : RadioState :=
  let s1 := { s with _bandwidth := BW }
  { s1 with radioCalls := s1.radioCalls ++
      [RadioCall.SetTxConfig s1._txeirp s1._bandwidth s1._SF,
       RadioCall.SetRxConfig s1._bandwidth s1._SF] }

/-- The member function `DFRobot_LoRaRadio::setEIRP`; `_txeirp` is a `uint8_t`. -/
def DFRobot_LoRaRadio.setEIRP (s : RadioState) (EIRP : Int) : RadioState :=
  let s1 := { s with _txeirp := toUint8 EIRP }
  { s1 with radioCalls := s1.radioCalls ++
      [RadioCall.SetTxConfig s1._txeirp s1._bandwidth s1._SF] }

/-- The member function `DFRobot_LoRaRadio::setSF`. -/
def DFRobot_LoRaRadio.setSF (s : RadioState) (SF : Nat) : RadioState :=
  let s1 := { s with _SF := SF }
  { s1 with radioCalls := s1.radioCalls ++
      [RadioCall.SetTxConfig s1._txeirp s1._bandwidth s1._SF,
       RadioCall.SetRxConfig s1._bandwidth s1._SF] }

/-- The member function `DFRobot_LoRaRadio::setSync`, whose body is commented out. -/
def DFRobot_LoRaRadio.setSync (s : RadioState) (_sync : Nat) : RadioState := s

/-- The member function `DFRobot_LoRaRadio::setFreq`. -/
def DFRobot_LoRaRadio.setFreq (s : RadioState) (freq : Nat) : RadioState :=
  { s with radioCalls := s.radioCalls ++ [RadioCall.SetChannel freq] }

/-- The member function `DFRobot_LoRaRadio::sendData`.  With encryption on, the scratch buffer
handed to the radio holds what the cipher wrote for the `size` bytes of `data`. -/
def DFRobot_LoRaRadio.sendData (cipher : Cipher) (s : RadioState) (data : List Nat)
    (size : Nat) : RadioState :=
  if s.isEncryption = true then
    let dataSend := cipher.LoRaMacPayloadEncrypt data size s.dataKey 0xDFDFDFDF 1 0x66
    { s with radioCalls := s.radioCalls ++ [RadioCall.Send dataSend size] }
  else
    { s with radioCalls := s.radioCalls ++ [RadioCall.Send data size] }

/-- The member function `DFRobot_LoRaRadio::setTxCB`. -/
def DFRobot_LoRaRadio.setTxCB (s : RadioState) (cb : Handler) : RadioState :=
  { s with
    radioEvent := { s.radioEvent with TxDone := cb }
    radioCalls := s.radioCalls ++ [RadioCall.reInitEvent] }

/-- The member function `DFRobot_LoRaRadio::setRxCB`. -/
def DFRobot_LoRaRadio.setRxCB (s : RadioState) (cb : Handler) : RadioState :=
  { s with
    rxEncryptiondone := cb
    radioEvent := { s.radioEvent with RxDone := true }
    radioCalls := s.radioCalls ++ [RadioCall.reInitEvent] }

/-- The member function `DFRobot_LoRaRadio::startRx`. -/
def DFRobot_LoRaRadio.startRx (s : RadioState) : RadioState :=
  { s with radioCalls := s.radioCalls ++ [RadioCall.Rx 0xFFFFFF] }

/-- The member function `DFRobot_LoRaRadio::stopRx`. -/
def DFRobot_LoRaRadio.stopRx (s : RadioState) : RadioState :=
  { s with radioCalls := s.radioCalls ++ [RadioCall.Standby] }

/-- The member function `DFRobot_LoRaRadio::setCadCB`. -/
def DFRobot_LoRaRadio.setCadCB (s : RadioState) (cb : Handler) : RadioState :=
  { s with
    radioEvent := { s.radioEvent with CadDone := cb }
    radioCalls := s.radioCalls ++ [RadioCall.reInitEvent] }

/-- The member function `DFRobot_LoRaRadio::setRxErrorCB`. -/
def DFRobot_LoRaRadio.setRxErrorCB (s : RadioState) (cb : Handler) : RadioState :=
  { s with
    radioEvent := { s.radioEvent with RxError := cb }
    radioCalls := s.radioCalls ++ [RadioCall.reInitEvent] }

/-- The member function `DFRobot_LoRaRadio::startCad`. -/
def DFRobot_LoRaRadio.startCad (s : RadioState) (cadSymbolNum cadDetPeak cadDetMin : Nat) :
    RadioState :=
  { s with radioCalls := s.radioCalls ++
      [RadioCall.SetCadParams cadSymbolNum cadDetPeak cadDetMin, RadioCall.StartCad] }

/-- The member function `DFRobot_LoRaRadio::deepSleepMs`: the radio is put to sleep and the
processor enters deep sleep, from which the call does not return. -/
def DFRobot_LoRaRadio.deepSleepMs (s : RadioState) (_timesleep : Nat) : RadioState :=
  { s with
    radioCalls := s.radioCalls ++
      [RadioCall.Standby, RadioCall.Sleep, RadioCall.esp_deep_sleep_start]
    halted := true }

/-- The member function `DFRobot_LoRaRadio::setEncryptKey`. -/
def DFRobot_LoRaRadio.setEncryptKey (s : RadioState) (key : List Nat) : RadioState :=
  { s with isEncryption := true, dataKey := memcpy s.dataKey key 16 }

/-- The member function `DFRobot_LoRaRadio::dumpRegisters`: it reads and prints registers. -/
def DFRobot_LoRaRadio.dumpRegisters (s : RadioState) : RadioState := s

/-- A call of a public member function of `DFRobot_LoRaRadio`, with its arguments. -/
inductive RadioOp
  | init
  | setEIRP (EIRP : Int)
  | setSF (SF : Nat)
  | setBW (BW : eBandwidths_t)
  | setFreq (freq : Nat)
  | setTxCB (cb : Handler)
  | sendData (data : List Nat) (size : Nat)
  | setRxCB (cb : Handler)
  | setRxErrorCB (cb : Handler)
  | startRx
  | stopRx
  | setCadCB (cb : Handler)
  | startCad (cadSymbolNum cadDetPeak cadDetMin : Nat)
  | deepSleepMs (timesleep : Nat)
  | setEncryptKey (key : List Nat)
  | dumpRegisters
  | setSync (sync : Nat)
  deriving DecidableEq, Repr

/-- One public operation executed on the radio state; nothing executes once the processor
has entered deep sleep. -/
def RadioOp.run (env : Env) (cipher : Cipher) (s : RadioState) (op : RadioOp) : RadioState :=
  if s.halted = true then s
  else
    match op with
    | .init => DFRobot_LoRaRadio.init env s
    | .setEIRP EIRP => DFRobot_LoRaRadio.setEIRP s EIRP
    | .setSF SF => DFRobot_LoRaRadio.setSF s SF
    | .setBW BW => DFRobot_LoRaRadio.setBW s BW
    | .setFreq freq => DFRobot_LoRaRadio.setFreq s freq
    | .setTxCB cb => DFRobot_LoRaRadio.setTxCB s cb
    | .sendData data size => DFRobot_LoRaRadio.sendData cipher s data size
    | .setRxCB cb => DFRobot_LoRaRadio.setRxCB s cb
    | .setRxErrorCB cb => DFRobot_LoRaRadio.setRxErrorCB s cb
    | .startRx => DFRobot_LoRaRadio.startRx s
    | .stopRx => DFRobot_LoRaRadio.stopRx s
    | .setCadCB cb => DFRobot_LoRaRadio.setCadCB s cb
    | .startCad a b c => DFRobot_LoRaRadio.startCad s a b c
    | .deepSleepMs timesleep => DFRobot_LoRaRadio.deepSleepMs s timesleep
    | .setEncryptKey key => DFRobot_LoRaRadio.setEncryptKey s key
    | .dumpRegisters => DFRobot_LoRaRadio.dumpRegisters s
    | .setSync sync => DFRobot_LoRaRadio.setSync s sync

/-- A sequence of public operations executed in order. -/
def runOps (env : Env) (cipher : Cipher) (s : RadioState) (ops : List RadioOp) : RadioState :=
  ops.foldl (RadioOp.run env cipher) s

/-! ## Frame counters -/

/-- A value returned as a `uint32_t`. -/
def toUint32 (x : Nat) : Nat := x % 4294967296

/-- The member function `LoRaWAN_Node::getLastUplinkCounter`. -/
def LoRaWAN_Node.getLastUplinkCounter (ev : EventEnv) (s : State) : Nat :=
  toUint32 (ev.GetUplinkCounter s.mac)

/-- The member function `LoRaWAN_Node::getLastDownCounter`; `GetDownlinkCounter` is the
engine's answer. -/
def LoRaWAN_Node.getLastDownCounter (GetDownlinkCounter : LoRaMac → Nat) (s : State) : Nat :=
  toUint32 (GetDownlinkCounter s.mac)

/-! ## The two workers and their wake-up signal -/

/-- The processing step a worker runs when its wait returns. -/
inductive WorkerProcess
  | LmHandlerProcess
  | Radio2_BgIrqProcess
  deriving DecidableEq, Repr

/-- One iteration of a worker loop: the semaphore it passes to `xSemaphoreTake` with
`portMAX_DELAY`, and the processing step it runs once the take has returned `pdTRUE`. -/
structure WorkerIteration where
  semaphore : Option Nat
  process : WorkerProcess
  deriving DecidableEq, Repr

/-- An iteration of the loop of `loraTask`, begun in state `s`: it reads `loraIntSem`. -/
def loraTask (s : State) : WorkerIteration :=
  { semaphore := s.loraIntSem, process := .LmHandlerProcess }

/-- An iteration of the loop of `loraRadioTask`, begun in state `s`: it reads the variable
`loraIntSem` that `DFRobot_LoRaRadio.cpp` declares `extern`. -/
def loraRadioTask (s : RadioState) : WorkerIteration :=
  { semaphore := s.loraIntSem, process := .Radio2_BgIrqProcess }

/-- Both translation units linked into one program.  `loraIntSem` and `loraTaskHandle` are
defined once, in `DFRobot_LoRaWAN.cpp`, and `DFRobot_LoRaRadio.cpp` declares them `extern`: the
fields of that name in `node` and in `radio` are the same two variables. -/
structure Program where
  node : State
  radio : RadioState
  deriving DecidableEq, Repr

/-- The program after code of `DFRobot_LoRaWAN.cpp` has left the state `s`: what it stored in
`loraIntSem` and `loraTaskHandle` is what `DFRobot_LoRaRadio.cpp` reads under these names. -/
def Program.afterNode (p : Program) (s : State) : Program :=
  { node := s
    radio := { p.radio with loraIntSem := s.loraIntSem, loraTaskHandle := s.loraTaskHandle } }

/-- The program after code of `DFRobot_LoRaRadio.cpp` has left the state `r`: what it stored
in `loraIntSem` and `loraTaskHandle` is what `DFRobot_LoRaWAN.cpp` reads under these names. -/
def Program.afterRadio (p : Program) (r : RadioState) : Program :=
  { node := { p.node with loraIntSem := r.loraIntSem, loraTaskHandle := r.loraTaskHandle }
    radio := r }

/-- The call `LoRaWAN_Node::init` in the linked program. -/
def Program.LoRaWAN_Node_init (build : Build) (env : Env) (p : Program)
    (dataRate txEirp : Int) (adr dutyCycle : Bool) : Bool × Program :=
  let r := LoRaWAN_Node.init build env p.node dataRate txEirp adr dutyCycle
  (r.1, p.afterNode r.2)

/-- The call `DFRobot_LoRaRadio::init` in the linked program. -/
def Program.DFRobot_LoRaRadio_init (env : Env) (p : Program) : Program :=
  p.afterRadio (DFRobot_LoRaRadio.init env p.radio)

/-- What a worker task is doing: not created yet; `ready`, that is created or back at the top
of its loop, its next action being to read `loraIntSem` and call `xSemaphoreTake`; or blocked
in `xSemaphoreTake(sem, portMAX_DELAY)` on the semaphore it read. -/
inductive WorkerState
  | notCreated
  | ready
  | waiting (sem : Option Nat)
  deriving DecidableEq, Repr

/-- The linked program together with its two worker tasks. -/
structure Tasks where
  program : Program
  loraTaskState : WorkerState
  loraRadioTaskState : WorkerState
  deriving DecidableEq, Repr

/-- What can happen next in the program with its workers: a call of one of the two `init`
functions by the application, a worker reading `loraIntSem` and blocking in `xSemaphoreTake`,
or the wait of a worker returning `pdTRUE` because its semaphore was given, after which the
worker runs its processing step and is back at the top of its loop. -/
inductive Event
  | LoRaWAN_Node_init (build : Build) (env : Env) (dataRate txEirp : Int) (adr dutyCycle : Bool)
  | DFRobot_LoRaRadio_init (env : Env)
  | loraTask_take
  | loraRadioTask_take
  | loraTask_wake
  | loraRadioTask_wake

/-- Whether `LoRaWAN_Node::init` gets past its data-rate check and so calls `taskLoad`. -/
def initCallsTaskLoad (build : Build) (env : Env) (dataRate : Int) : Bool :=
  !decide (build = .REGION_US915 ∧
    (dataRate = env.DR_5 ∨ dataRate = env.DR_6 ∨ dataRate = env.DR_7))

/-- One event.  A worker exists, `ready`, once the `xTaskCreate` of its load function has
stored a handle; a take moves a `ready` worker to `waiting` on the semaphore its loop reads at
that moment; a wake moves a `waiting` worker back to `ready`. -/
def Tasks.step (t : Tasks) : Event → Tasks
  | .LoRaWAN_Node_init build env dataRate txEirp adr dutyCycle =>
    { program :=
        (Program.LoRaWAN_Node_init build env t.program dataRate txEirp adr dutyCycle).2
      loraTaskState :=
        if initCallsTaskLoad build env dataRate = true ∧ env.xTaskCreate.2 ≠ none then .ready
        else t.loraTaskState
      loraRadioTaskState := t.loraRadioTaskState }
  | .DFRobot_LoRaRadio_init env =>
    { program := Program.DFRobot_LoRaRadio_init env t.program
      loraTaskState := t.loraTaskState
      loraRadioTaskState :=
        if env.xTaskCreate.2 ≠ none then .ready else t.loraRadioTaskState }
  | .loraTask_take =>
    match t.loraTaskState with
    | .ready => { t with loraTaskState := .waiting (loraTask t.program.node).semaphore }
    | _ => t
  | .loraRadioTask_take =>
    match t.loraRadioTaskState with
    | .ready =>
      { t with loraRadioTaskState := .waiting (loraRadioTask t.program.radio).semaphore }
    | _ => t
  | .loraTask_wake =>
    match t.loraTaskState with
    | .waiting _ => { t with loraTaskState := .ready }
    | _ => t
  | .loraRadioTask_wake =>
    match t.loraRadioTaskState with
    | .waiting _ => { t with loraRadioTaskState := .ready }
    | _ => t

/-- A sequence of events, in order. -/
def Tasks.run (t : Tasks) (events : List Event) : Tasks :=
  events.foldl Tasks.step t

/-- Both paths initialised, the MAC path first, before either worker begins to wait. -/
def scheduleNodeThenRadio (build : Build) (envNode envRadio : Env) (dataRate txEirp : Int)
    (adr dutyCycle : Bool) : List Event :=
  [.LoRaWAN_Node_init build envNode dataRate txEirp adr dutyCycle,
   .DFRobot_LoRaRadio_init envRadio, .loraTask_take, .loraRadioTask_take]

/-- Both paths initialised, the raw radio path first, before either worker begins to wait. -/
def scheduleRadioThenNode (build : Build) (envNode envRadio : Env) (dataRate txEirp : Int)
    (adr dutyCycle : Bool) : List Event :=
  [.DFRobot_LoRaRadio_init envRadio,
   .LoRaWAN_Node_init build envNode dataRate txEirp adr dutyCycle,
   .loraTask_take, .loraRadioTask_take]

/-- The MAC path initialised and its worker waiting before the raw radio path is initialised
and its worker begins to wait. -/
def scheduleNodeWaitsFirst (build : Build) (envNode envRadio : Env) (dataRate txEirp : Int)
    (adr dutyCycle : Bool) : List Event :=
  [.LoRaWAN_Node_init build envNode dataRate txEirp adr dutyCycle, .loraTask_take,
   .DFRobot_LoRaRadio_init envRadio, .loraRadioTask_take]

/-- The raw radio path initialised and its worker waiting before the MAC path is initialised
and its worker begins to wait. -/
def scheduleRadioWaitsFirst (build : Build) (envNode envRadio : Env) (dataRate txEirp : Int)
    (adr dutyCycle : Bool) : List Event :=
  [.DFRobot_LoRaRadio_init envRadio, .loraRadioTask_take,
   .LoRaWAN_Node_init build envNode dataRate txEirp adr dutyCycle, .loraTask_take]

/-! ## Concrete inputs -/

/-- An engine in the US915 region, not activated, whose six-word masks enable the channels
0 to 71. -/
def mac0 : LoRaMac :=
  { NetworkActivation := .ACTIVATION_TYPE_NONE
    ChannelsDatarate := 3
    Contexts :=
      { Region := .LORAMAC_REGION_US915
        ChannelsDefaultMask := [0xFFFF, 0xFFFF, 0xFFFF, 0xFFFF, 0x00FF, 0]
        ChannelsMask := [0xFFFF, 0xFFFF, 0xFFFF, 0xFFFF, 0x00FF, 0]
        ChannelsMaskRemaining := [0xFFFF, 0xFFFF, 0xFFFF, 0xFFFF, 0x00FF, 0] }
    internal := 0 }

/-- The handler parameters of a fresh translation unit, with all-zero identifiers and keys. -/
def params0 : LmHandlerParams_t :=
  { AdrEnable := false
    TxDatarate := 0
    DutyCycleEnabled := false
    TxEirp := 16
    joinType := .ACTIVATION_TYPE_NONE
    DevEui := List.replicate 8 0
    JoinEui := List.replicate 8 0
    AppKey := List.replicate 16 0
    DevAddr := 0
    AppSKey := List.replicate 16 0
    NwkSKey := List.replicate 16 0
    NbTrials := 1
    Class := .CLASS_A }

/-- The state before any constructor has run: no callback registered, no worker. -/
def state0 : State :=
  { mac := mac0
    LmHandlerParams := params0
    loraJoinCb := none
    rxCb := none
    txCb := none
    loraIntSem := none
    loraTaskHandle := none
    calls := [] }

/-- An environment in which every engine entry point succeeds and leaves the engine as it is,
except that a join request activates the session; the worker is created. -/
def envOk : Env :=
  { DR_5 := 5
    DR_6 := 6
    DR_7 := 7
    xSemaphoreCreateBinary := some 1
    xTaskCreate := (1, some 1)
    LmHandlerInit := fun _ mac => (.LORAMAC_HANDLER_SUCCESS, mac)
    LmHandlerJoin := fun _ mac => { mac with NetworkActivation := .ACTIVATION_TYPE_OTAA }
    LoRaMacQueryTxPossible := fun _ _ => .LORAMAC_STATUS_OK
    LoRaMacMcpsRequest := fun mac _ => (.LORAMAC_STATUS_OK, mac) }

/-- As `envOk`, but the engine finds no transmission possible at the current data rate
(status code 1); it still accepts the request handed to it. -/
def envInfeasible : Env :=
  { envOk with LoRaMacQueryTxPossible := fun _ _ => .LORAMAC_STATUS_ERROR 1 }

/-- As `envOk`, but the RTOS cannot create the worker: `xTaskCreate` returns zero and stores
no handle. -/
def envNoWorker : Env :=
  { envOk with xTaskCreate := (0, none) }

/-- A node built by the OTAA constructor on `state0`. -/
def otaaNode : State :=
  LoRaWAN_Node.LoRaWAN_Node_OTAA state0 (List.replicate 8 1) (List.replicate 8 2)
    (List.replicate 16 3) .CLASS_A

/-- As `state0`, in the CN470 region. -/
def stateCN470 : State :=
  { state0 with mac := { mac0 with Contexts := { mac0.Contexts with
      Region := .LORAMAC_REGION_CN470 } } }

/-- Engine readings for the notification handlers: RSSI -57, SNR 9, uplink counter 70000,
and region tables whose row `r` holds `16 - 2 r` resp. `30 - 2 r` in column 1. -/
def eventEnv0 : EventEnv :=
  { LoRaMacMcLastDataRssi := fun _ => -57
    LoRaMacMcLastDataSnr := fun _ => 9
    GetUplinkCounter := fun _ => 70000
    txpowerEirpEU868 := fun r => 16 - 2 * r
    txpowerEirpUS915 := fun r => 30 - 2 * r }

/-- As `state0`, with handler 7 in the join-callback slot. -/
def stateJoinCb : State :=
  { state0 with loraJoinCb := some 7 }

/-- A transmit-complete notification: acknowledged, DR3, power index 2, channel 9. -/
def txParams0 : LmHandlerTxParams_t :=
  { AckReceived := true, Datarate := 3, TxPower := 2, Channel := 9 }

/-- A received frame of two bytes on port 5. -/
def appData0 : LmHandlerAppData_t :=
  { Port := 5, BufferSize := 2, Buffer := some [0xCA, 0xFE] }

/-- The reception parameters of that frame. -/
def rxParams0 : LmHandlerRxParams_t :=
  { Rssi := -80, Snr := 7, IsRevACK := false, DownlinkCounter := 12 }

/-- The raw radio state of a fresh translation unit: encryption off, an all-zero key, no
callback, the default private members. -/
def radio0 : RadioState :=
  { isEncryption := false
    dataKey := List.replicate 16 0
    rxEncryptiondone := none
    radioEvent := { TxDone := none, RxDone := false, CadDone := none, RxError := none }
    _bandwidth := .BW_125
    _txeirp := 16
    _SF := 7
    loraIntSem := none
    loraTaskHandle := none
    radioCalls := []
    halted := false }

/-- A cipher that combines each of the `size` payload bytes with the first key byte by
exclusive or, in both directions. -/
def xorCipher : Cipher :=
  { LoRaMacPayloadEncrypt := fun buffer size key _ _ _ =>
      (buffer.take size).map (fun x => x ^^^ key.getD 0 0)
    LoRaMacPayloadDecrypt := fun buffer size key _ _ _ =>
      (buffer.take size).map (fun x => x ^^^ key.getD 0 0) }

/-- A sixteen-byte key. -/
def key0 : List Nat :=
  [0x2B, 0x7E, 0x15, 0x16, 0x28, 0xAE, 0xD2, 0xA6, 0xAB, 0xF7, 0x15, 0x88, 0x09, 0xCF, 0x4F, 0x3C]

/-- As `state0`, with handler 3 in the receive-callback slot. -/
def stateRxCb : State :=
  { state0 with rxCb := some 3 }

/-- As `envOk`, but the RTOS hands out semaphore 2 and worker handle 2. -/
def envSecond : Env :=
  { envOk with xSemaphoreCreateBinary := some 2, xTaskCreate := (1, some 2) }

/-- The linked program before any initialisation, with the OTAA node constructed. -/
def program0 : Program :=
  { node := otaaNode, radio := radio0 }

/-- A state whose join-callback slot is empty while the transmit and receive slots hold the
handlers 4 and 3. -/
def stateNoJoinCb : State :=
  { state0 with loraJoinCb := none, txCb := some 4, rxCb := some 3 }

/-- A state whose transmit-callback slot is empty while the join and receive slots hold the
handlers 7 and 3. -/
def stateNoTxCb : State :=
  { state0 with loraJoinCb := some 7, txCb := none, rxCb := some 3 }

/-- A state whose receive-callback slot is empty while the join and transmit slots hold the
handlers 7 and 4. -/
def stateNoRxCb : State :=
  { state0 with loraJoinCb := some 7, txCb := some 4, rxCb := none }

/-- The linked program `program0` with neither worker created. -/
def tasks0 : Tasks :=
  { program := program0, loraTaskState := .notCreated, loraRadioTaskState := .notCreated }

/-! ## Sub-band masks: proofs -/

/-- Copying six words onto a six-word mask replaces it by the source. -/
theorem RegionCommonChanMaskCopy_six (dest src : List Nat) (hd : dest.length = 6)
    (hs : src.length = 6) : RegionCommonChanMaskCopy dest src 6 = src := by
  match dest, hd, src, hs with
  | [_, _, _, _, _, _], _, [_, _, _, _, _, _], _ => rfl

/-- The mask and length the `switch` of `setSubBand` produces for a sub-band in `[1,8]` of
a region with sub-bands: six words, of which word `(b-1)/2` holds one byte of ones. -/
theorem subBandChannelMask_pattern (region : LoRaMacRegion_t) (b : Nat)
    (hr : region = .LORAMAC_REGION_US915 ∨ region = .LORAMAC_REGION_AU915 ∨
      region = .LORAMAC_REGION_CN470)
    (h1 : 1 ≤ b) (h8 : b ≤ 8) :
    ∃ mask, subBandChannelMask region b = some (mask, 6) ∧ mask.length = 6 ∧
      mask.getD ((b - 1) / 2) 0 = (if b % 2 = 1 then 0x00FF else 0xFF00) ∧
      ∀ i, i < 6 → i ≠ (b - 1) / 2 → i ≠ 4 → mask.getD i 0 = 0 := by
  rcases hr with rfl | rfl | rfl <;> interval_cases b <;>
    exact ⟨_, rfl, rfl, rfl, by decide⟩

/-- On a state whose region has sub-bands, `setSubBand b` with `b` in `[1,8]` succeeds and
copies the computed mask over each of the three masks. -/
theorem setSubBand_writes (s : State) (b : Nat) (mask : List Nat) (len : Nat)
    (h1 : 1 ≤ b) (h8 : b ≤ 8)
    (hm : subBandChannelMask s.mac.Contexts.Region b = some (mask, len)) :
    (LoRaWAN_Node.setSubBand s b).1 = true ∧
    (LoRaWAN_Node.setSubBand s b).2.mac.Contexts.ChannelsDefaultMask =
      RegionCommonChanMaskCopy s.mac.Contexts.ChannelsDefaultMask mask len ∧
    (LoRaWAN_Node.setSubBand s b).2.mac.Contexts.ChannelsMask =
      RegionCommonChanMaskCopy s.mac.Contexts.ChannelsMask mask len ∧
    (LoRaWAN_Node.setSubBand s b).2.mac.Contexts.ChannelsMaskRemaining =
      RegionCommonChanMaskCopy s.mac.Contexts.ChannelsMaskRemaining mask len := by
  have hg : ¬ (b < 1 ∨ b > 8) := by omega
  unfold LoRaWAN_Node.setSubBand
  rw [if_neg hg]
  simp [LoRaMacMibGetRequestConfirm_Contexts, hm]

/-- The mask the `switch` produces for US915 and AU915, word by word. -/
theorem subBandChannelMask_US915 (region : LoRaMacRegion_t) (b : Nat)
    (hr : region = .LORAMAC_REGION_US915 ∨ region = .LORAMAC_REGION_AU915)
    (h1 : 1 ≤ b) (h8 : b ≤ 8) :
    ∃ mask, subBandChannelMask region b = some (mask, 6) ∧ mask.length = 6 ∧
      mask.getD 4 0 = 1 <<< (b - 1) ∧ 1 <<< (b - 1) < 65536 ∧
      (∀ c, c < 96 → (channelEnabled mask c = true ↔
        (8 * (b - 1) ≤ c ∧ c ≤ 8 * (b - 1) + 7) ∨ c = 64 + (b - 1))) ∧
      (enabledChannels mask).length = 9 := by
  rcases hr with rfl | rfl <;> interval_cases b <;>
    exact ⟨_, rfl, rfl, rfl, by decide, by decide, by decide⟩

/-- C1: for every sub-band value outside `[1,8]`, `setSubBand` returns `false` and the state,
hence each of the three channel masks of the engine's context, is the one before the call,
whatever the region. -/
theorem setSubBand_out_of_range (s : State) (b : Nat) (h : b = 0 ∨ 9 ≤ b) :
    LoRaWAN_Node.setSubBand s b = (false, s) ∧
    (LoRaWAN_Node.setSubBand s b).2.mac.Contexts.ChannelsDefaultMask =
      s.mac.Contexts.ChannelsDefaultMask ∧
    (LoRaWAN_Node.setSubBand s b).2.mac.Contexts.ChannelsMask = s.mac.Contexts.ChannelsMask ∧
    (LoRaWAN_Node.setSubBand s b).2.mac.Contexts.ChannelsMaskRemaining =
      s.mac.Contexts.ChannelsMaskRemaining := by
  have hg : b < 1 ∨ b > 8 := by omega
  have e : LoRaWAN_Node.setSubBand s b = (false, s) := by
    unfold LoRaWAN_Node.setSubBand
    rw [if_pos hg]
  rw [e]
  exact ⟨rfl, rfl, rfl, rfl⟩

/-- C1 at sub-band 9 on the US915 state `state0`. -/
theorem setSubBand_out_of_range_witness :
    LoRaWAN_Node.setSubBand state0 9 = (false, state0) ∧
    (LoRaWAN_Node.setSubBand state0 9).2.mac.Contexts.ChannelsDefaultMask =
      state0.mac.Contexts.ChannelsDefaultMask ∧
    (LoRaWAN_Node.setSubBand state0 9).2.mac.Contexts.ChannelsMask =
      state0.mac.Contexts.ChannelsMask ∧
    (LoRaWAN_Node.setSubBand state0 9).2.mac.Contexts.ChannelsMaskRemaining =
      state0.mac.Contexts.ChannelsMaskRemaining :=
  setSubBand_out_of_range state0 9 (Or.inr (Nat.le_refl 9))

/-- C2: for every sub-band `b` in `[1,8]` on US915, AU915 or CN470, `setSubBand b` computes a
six-word mask whose word `(b-1)/2` is exactly `0x00FF` when `b` is odd and exactly `0xFF00`
when `b` is even, and whose other words, the auxiliary word 4 apart, are zero; that mask is
the one it copies over the engine's `ChannelsMask`. -/
theorem setSubBand_mask_pattern (s : State) (b : Nat)
    (hr : s.mac.Contexts.Region = .LORAMAC_REGION_US915 ∨
      s.mac.Contexts.Region = .LORAMAC_REGION_AU915 ∨
      s.mac.Contexts.Region = .LORAMAC_REGION_CN470)
    (h1 : 1 ≤ b) (h8 : b ≤ 8) :
    ∃ mask, subBandChannelMask s.mac.Contexts.Region b = some (mask, 6) ∧
      (LoRaWAN_Node.setSubBand s b).1 = true ∧
      (LoRaWAN_Node.setSubBand s b).2.mac.Contexts.ChannelsMask =
        RegionCommonChanMaskCopy s.mac.Contexts.ChannelsMask mask 6 ∧
      mask.length = 6 ∧
      mask.getD ((b - 1) / 2) 0 = (if b % 2 = 1 then 0x00FF else 0xFF00) ∧
      ∀ i, i < 6 → i ≠ (b - 1) / 2 → i ≠ 4 → mask.getD i 0 = 0 := by
  obtain ⟨mask, hm, hl, hw, hz⟩ := subBandChannelMask_pattern _ b hr h1 h8
  obtain ⟨hret, -, hcur, -⟩ := setSubBand_writes s b mask 6 h1 h8 hm
  exact ⟨mask, hm, hret, hcur, hl, hw, hz⟩

/-- C2 at sub-band 2 on the US915 state `state0`. -/
theorem setSubBand_mask_pattern_witness :
    ∃ mask, subBandChannelMask state0.mac.Contexts.Region 2 = some (mask, 6) ∧
      (LoRaWAN_Node.setSubBand state0 2).1 = true ∧
      (LoRaWAN_Node.setSubBand state0 2).2.mac.Contexts.ChannelsMask =
        RegionCommonChanMaskCopy state0.mac.Contexts.ChannelsMask mask 6 ∧
      mask.length = 6 ∧
      mask.getD ((2 - 1) / 2) 0 = (if 2 % 2 = 1 then 0x00FF else 0xFF00) ∧
      ∀ i, i < 6 → i ≠ (2 - 1) / 2 → i ≠ 4 → mask.getD i 0 = 0 :=
  setSubBand_mask_pattern state0 2 (Or.inl rfl) (by decide) (by decide)

/-- C3: on US915 and AU915, for every `b` in `[1,8]` and six-word masks, each of the three
masks `setSubBand b` writes enables, among the channels 0 to 95, exactly the eight channels
`8(b-1) .. 8(b-1)+7` and the channel `64+(b-1)`: nine channels; its word 4 is `1 << (b-1)`,
which fits 16 bits. -/
theorem setSubBand_US915_channels (s : State) (b : Nat)
    (hr : s.mac.Contexts.Region = .LORAMAC_REGION_US915 ∨
      s.mac.Contexts.Region = .LORAMAC_REGION_AU915)
    (h1 : 1 ≤ b) (h8 : b ≤ 8)
    (hd : s.mac.Contexts.ChannelsDefaultMask.length = 6)
    (hc : s.mac.Contexts.ChannelsMask.length = 6)
    (hrem : s.mac.Contexts.ChannelsMaskRemaining.length = 6) :
    (LoRaWAN_Node.setSubBand s b).1 = true ∧
    ∀ m, (m = (LoRaWAN_Node.setSubBand s b).2.mac.Contexts.ChannelsDefaultMask ∨
        m = (LoRaWAN_Node.setSubBand s b).2.mac.Contexts.ChannelsMask ∨
        m = (LoRaWAN_Node.setSubBand s b).2.mac.Contexts.ChannelsMaskRemaining) →
      (∀ c, c < 96 → (channelEnabled m c = true ↔
        (8 * (b - 1) ≤ c ∧ c ≤ 8 * (b - 1) + 7) ∨ c = 64 + (b - 1))) ∧
      (enabledChannels m).length = 9 ∧
      m.getD 4 0 = 1 <<< (b - 1) ∧ 1 <<< (b - 1) < 65536 := by
  obtain ⟨mask, hm, hl, hw, hlt, hch, hcnt⟩ := subBandChannelMask_US915 _ b hr h1 h8
  obtain ⟨hret, h1m, h2m, h3m⟩ := setSubBand_writes s b mask 6 h1 h8 hm
  rw [RegionCommonChanMaskCopy_six _ _ hd hl] at h1m
  rw [RegionCommonChanMaskCopy_six _ _ hc hl] at h2m
  rw [RegionCommonChanMaskCopy_six _ _ hrem hl] at h3m
  refine ⟨hret, ?_⟩
  intro m hmem
  have hmm : m = mask := by
    rcases hmem with h | h | h
    · rw [h, h1m]
    · rw [h, h2m]
    · rw [h, h3m]
  subst hmm
  exact ⟨hch, hcnt, hw, hlt⟩

/-- C3 at sub-band 2 on the US915 state `state0`: channels 8 to 15 and channel 65. -/
theorem setSubBand_US915_channels_witness :
    (LoRaWAN_Node.setSubBand state0 2).1 = true ∧
    ∀ m, (m = (LoRaWAN_Node.setSubBand state0 2).2.mac.Contexts.ChannelsDefaultMask ∨
        m = (LoRaWAN_Node.setSubBand state0 2).2.mac.Contexts.ChannelsMask ∨
        m = (LoRaWAN_Node.setSubBand state0 2).2.mac.Contexts.ChannelsMaskRemaining) →
      (∀ c, c < 96 → (channelEnabled m c = true ↔
        (8 * (2 - 1) ≤ c ∧ c ≤ 8 * (2 - 1) + 7) ∨ c = 64 + (2 - 1))) ∧
      (enabledChannels m).length = 9 ∧
      m.getD 4 0 = 1 <<< (2 - 1) ∧ 1 <<< (2 - 1) < 65536 :=
  setSubBand_US915_channels state0 2 (Or.inl rfl) (by decide) (by decide) rfl rfl rfl

/-! ## Transmission: proofs -/

/-- The function `sendConfirmedPacket` in one expression: the request is chosen by the
feasibility answer, the result is whether the engine accepted it. -/
theorem sendConfirmedPacket_eq (env : Env) (s : State) (port : Nat) (buffer : BufferPtr)
    (size : Nat) (req : McpsReq_t)
    (hreq : req = if env.LoRaMacQueryTxPossible s.mac size ≠ .LORAMAC_STATUS_OK
      then flushFrame s else confirmedFrame s port buffer size) :
    LoRaWAN_Node.sendConfirmedPacket env s port buffer size =
      (decide ((env.LoRaMacMcpsRequest s.mac req).1 = .LORAMAC_STATUS_OK),
        afterMcpsRequest env s req) := by
  subst hreq
  unfold LoRaWAN_Node.sendConfirmedPacket afterMcpsRequest flushFrame confirmedFrame
    LoRaMacMibGetRequestConfirm_ChannelsDatarate
  by_cases hq : env.LoRaMacQueryTxPossible s.mac size = .LORAMAC_STATUS_OK <;>
    simp only [hq, ne_eq, not_true_eq_false, not_false_eq_true, if_true, if_false] <;>
    split_ifs with hs <;> simp [hs]

/-- The function `sendUnconfirmedPacket` in one expression: the request is chosen by the
feasibility answer, the result is whether the engine did not accept it. -/
theorem sendUnconfirmedPacket_eq (env : Env) (s : State) (port : Nat) (buffer : BufferPtr)
    (size : Nat) (req : McpsReq_t)
    (hreq : req = if env.LoRaMacQueryTxPossible s.mac size ≠ .LORAMAC_STATUS_OK
      then flushFrame s else unconfirmedFrame s port buffer size) :
    LoRaWAN_Node.sendUnconfirmedPacket env s port buffer size =
      (!decide ((env.LoRaMacMcpsRequest s.mac req).1 = .LORAMAC_STATUS_OK),
        afterMcpsRequest env s req) := by
  subst hreq
  unfold LoRaWAN_Node.sendUnconfirmedPacket afterMcpsRequest flushFrame unconfirmedFrame
    LoRaMacMibGetRequestConfirm_ChannelsDatarate
  by_cases hq : env.LoRaMacQueryTxPossible s.mac size = .LORAMAC_STATUS_OK <;>
    simp only [hq, ne_eq, not_true_eq_false, not_false_eq_true, if_true, if_false] <;>
    split_ifs with hs <;> simp [hs]

/-- The calls `sendConfirmedPacket` leaves: one request appended, the flush frame when
infeasible. -/
theorem sendConfirmedPacket_infeasible (env : Env) (s : State) (port : Nat)
    (buffer : BufferPtr) (size : Nat)
    (h : env.LoRaMacQueryTxPossible s.mac size ≠ .LORAMAC_STATUS_OK) :
    (LoRaWAN_Node.sendConfirmedPacket env s port buffer size).2.calls =
      s.calls ++ [Call.LoRaMacMcpsRequest (flushFrame s)] := by
  rw [sendConfirmedPacket_eq env s port buffer size (flushFrame s) (by rw [if_pos h])]
  rfl

/-- The calls `sendUnconfirmedPacket` leaves: one request appended, the flush frame when
infeasible. -/
theorem sendUnconfirmedPacket_infeasible (env : Env) (s : State) (port : Nat)
    (buffer : BufferPtr) (size : Nat)
    (h : env.LoRaMacQueryTxPossible s.mac size ≠ .LORAMAC_STATUS_OK) :
    (LoRaWAN_Node.sendUnconfirmedPacket env s port buffer size).2.calls =
      s.calls ++ [Call.LoRaMacMcpsRequest (flushFrame s)] := by
  rw [sendUnconfirmedPacket_eq env s port buffer size (flushFrame s) (by rw [if_pos h])]
  rfl

/-- C4 (the code departs from it): with an engine that accepts the request
(`LoRaMacMcpsRequest` answers `LORAMAC_STATUS_OK`), `sendUnconfirmedPacket` on port 1 with a
three-byte payload submits that payload and returns `false`, where `sendConfirmedPacket` on the
same input returns `true`. -/
theorem sendUnconfirmedPacket_accepted_returns_false :
    (envOk.LoRaMacMcpsRequest state0.mac
        { ReqType := .MCPS_UNCONFIRMED, fPort := some 1, fBuffer := some [1, 2, 3],
          fBufferSize := 3, NbTrials := none, Datarate := 3 }).1 = .LORAMAC_STATUS_OK ∧
    (LoRaWAN_Node.sendUnconfirmedPacket envOk state0 1 (some [1, 2, 3]) 3).2.calls =
      [Call.LoRaMacMcpsRequest
        { ReqType := .MCPS_UNCONFIRMED, fPort := some 1, fBuffer := some [1, 2, 3],
          fBufferSize := 3, NbTrials := none, Datarate := 3 }] ∧
    (LoRaWAN_Node.sendUnconfirmedPacket envOk state0 1 (some [1, 2, 3]) 3).1 = false ∧
    (LoRaWAN_Node.sendConfirmedPacket envOk state0 1 (some [1, 2, 3]) 3).1 = true := by
  refine ⟨rfl, ?_, ?_, ?_⟩ <;> decide

/-- C5: when the engine reports the transmission of `size` bytes infeasible, both
`sendConfirmedPacket` and `sendUnconfirmedPacket` hand the engine exactly one request, and it
is not the caller's payload but a frame of type unconfirmed with a null buffer, buffer size 0
and the engine's current channel data rate. -/
theorem send_infeasible_submits_flush_frame (env : Env) (s : State) (port : Nat)
    (buffer : BufferPtr) (size : Nat)
    (h : env.LoRaMacQueryTxPossible s.mac size ≠ .LORAMAC_STATUS_OK) :
    ∃ req : McpsReq_t,
      (LoRaWAN_Node.sendConfirmedPacket env s port buffer size).2.calls =
        s.calls ++ [Call.LoRaMacMcpsRequest req] ∧
      (LoRaWAN_Node.sendUnconfirmedPacket env s port buffer size).2.calls =
        s.calls ++ [Call.LoRaMacMcpsRequest req] ∧
      req.ReqType = .MCPS_UNCONFIRMED ∧ req.fBuffer = none ∧ req.fBufferSize = 0 ∧
      req.Datarate = LoRaMacMibGetRequestConfirm_ChannelsDatarate s.mac :=
  ⟨flushFrame s, sendConfirmedPacket_infeasible env s port buffer size h,
    sendUnconfirmedPacket_infeasible env s port buffer size h, rfl, rfl, rfl, rfl⟩

/-- C5 on port 1 with a 64-byte buffer and an engine that reports infeasible. -/
theorem send_infeasible_submits_flush_frame_witness :
    ∃ req : McpsReq_t,
      (LoRaWAN_Node.sendConfirmedPacket envInfeasible state0 1
          (some (List.replicate 64 7)) 64).2.calls =
        state0.calls ++ [Call.LoRaMacMcpsRequest req] ∧
      (LoRaWAN_Node.sendUnconfirmedPacket envInfeasible state0 1
          (some (List.replicate 64 7)) 64).2.calls =
        state0.calls ++ [Call.LoRaMacMcpsRequest req] ∧
      req.ReqType = .MCPS_UNCONFIRMED ∧ req.fBuffer = none ∧ req.fBufferSize = 0 ∧
      req.Datarate = LoRaMacMibGetRequestConfirm_ChannelsDatarate state0.mac :=
  send_infeasible_submits_flush_frame envInfeasible state0 1 (some (List.replicate 64 7)) 64
    (by decide)

/-- C6: `sendConfirmedPacket` hands the engine exactly one request and returns `true` if and
only if `LoRaMacMcpsRequest` answered `LORAMAC_STATUS_OK` for that request, whether the request
is the caller's payload (engine reports feasible) or the substituted flush frame (engine
reports infeasible): the feasibility answer decides only which request is submitted. -/
theorem sendConfirmedPacket_true_iff_accepted (env : Env) (s : State) (port : Nat)
    (buffer : BufferPtr) (size : Nat) :
    ∃ req : McpsReq_t,
      req = (if env.LoRaMacQueryTxPossible s.mac size ≠ .LORAMAC_STATUS_OK then flushFrame s
        else confirmedFrame s port buffer size) ∧
      (LoRaWAN_Node.sendConfirmedPacket env s port buffer size).2.calls =
        s.calls ++ [Call.LoRaMacMcpsRequest req] ∧
      (LoRaWAN_Node.sendConfirmedPacket env s port buffer size).2.mac =
        (env.LoRaMacMcpsRequest s.mac req).2 ∧
      ((LoRaWAN_Node.sendConfirmedPacket env s port buffer size).1 = true ↔
        (env.LoRaMacMcpsRequest s.mac req).1 = .LORAMAC_STATUS_OK) := by
  refine ⟨_, rfl, ?_, ?_, ?_⟩ <;>
    rw [sendConfirmedPacket_eq env s port buffer size _ rfl]
  · rfl
  · rfl
  · simp

/-- C7: when the engine reports the transmission of `size` bytes feasible, the one request
`sendConfirmedPacket` submits is of type confirmed and the one `sendUnconfirmedPacket` submits
is of type unconfirmed, each with `fPort = port`, `fBuffer = buffer`, `fBufferSize = size` and
the engine's current channel data rate, the confirmed one with `NbTrials` the configured trial
count. -/
theorem send_feasible_submits_payload (env : Env) (s : State) (port : Nat)
    (buffer : BufferPtr) (size : Nat)
    (h : env.LoRaMacQueryTxPossible s.mac size = .LORAMAC_STATUS_OK) :
    (LoRaWAN_Node.sendConfirmedPacket env s port buffer size).2.calls =
      s.calls ++ [Call.LoRaMacMcpsRequest
        { ReqType := .MCPS_CONFIRMED, fPort := some port, fBuffer := buffer,
          fBufferSize := size, NbTrials := some s.LmHandlerParams.NbTrials,
          Datarate := LoRaMacMibGetRequestConfirm_ChannelsDatarate s.mac }] ∧
    (LoRaWAN_Node.sendUnconfirmedPacket env s port buffer size).2.calls =
      s.calls ++ [Call.LoRaMacMcpsRequest
        { ReqType := .MCPS_UNCONFIRMED, fPort := some port, fBuffer := buffer,
          fBufferSize := size, NbTrials := none,
          Datarate := LoRaMacMibGetRequestConfirm_ChannelsDatarate s.mac }] := by
  have hn : ¬ (env.LoRaMacQueryTxPossible s.mac size ≠ .LORAMAC_STATUS_OK) := by simp [h]
  constructor
  · rw [sendConfirmedPacket_eq env s port buffer size (confirmedFrame s port buffer size)
      (by rw [if_neg hn])]
    rfl
  · rw [sendUnconfirmedPacket_eq env s port buffer size (unconfirmedFrame s port buffer size)
      (by rw [if_neg hn])]
    rfl

/-- C7 on port 1 with a three-byte payload and an engine that reports feasible. -/
theorem send_feasible_submits_payload_witness :
    (LoRaWAN_Node.sendConfirmedPacket envOk state0 1 (some [1, 2, 3]) 3).2.calls =
      state0.calls ++ [Call.LoRaMacMcpsRequest
        { ReqType := .MCPS_CONFIRMED, fPort := some 1, fBuffer := some [1, 2, 3],
          fBufferSize := 3, NbTrials := some state0.LmHandlerParams.NbTrials,
          Datarate := LoRaMacMibGetRequestConfirm_ChannelsDatarate state0.mac }] ∧
    (LoRaWAN_Node.sendUnconfirmedPacket envOk state0 1 (some [1, 2, 3]) 3).2.calls =
      state0.calls ++ [Call.LoRaMacMcpsRequest
        { ReqType := .MCPS_UNCONFIRMED, fPort := some 1, fBuffer := some [1, 2, 3],
          fBufferSize := 3, NbTrials := none,
          Datarate := LoRaMacMibGetRequestConfirm_ChannelsDatarate state0.mac }] :=
  send_feasible_submits_payload envOk state0 1 (some [1, 2, 3]) 3 rfl

/-! ## Join and initialisation: proofs -/

/-- The function `setSubBand` leaves the handler parameters alone. -/
theorem setSubBand_LmHandlerParams (s : State) (b : Nat) :
    (LoRaWAN_Node.setSubBand s b).2.LmHandlerParams = s.LmHandlerParams := by
  unfold LoRaWAN_Node.setSubBand
  by_cases hg : b < 1 ∨ b > 8
  · rw [if_pos hg]
  · rw [if_neg hg]
    dsimp only
    cases subBandChannelMask (LoRaMacMibGetRequestConfirm_Contexts s.mac).Region b with
    | none => rfl
    | some p => rfl

/-- The function `taskLoad` leaves the handler parameters alone. -/
theorem taskLoad_LmHandlerParams (env : Env) (s : State) :
    (taskLoad env s).2.LmHandlerParams = s.LmHandlerParams := by
  unfold taskLoad
  split_ifs <;> split <;> rfl

/-- When `init` returns `true` on a state whose join type is ABP, the network activation
entry of the engine holds ABP afterwards. -/
theorem init_ABP_activation (build : Build) (env : Env) (s : State) (dataRate txEirp : Int)
    (adr dutyCycle : Bool) (hj : s.LmHandlerParams.joinType = .ACTIVATION_TYPE_ABP)
    (h : (LoRaWAN_Node.init build env s dataRate txEirp adr dutyCycle).1 = true) :
    (LoRaWAN_Node.init build env s dataRate txEirp adr dutyCycle).2.mac.NetworkActivation =
      .ACTIVATION_TYPE_ABP := by
  unfold LoRaWAN_Node.init at h ⊢
  dsimp only at h ⊢
  split_ifs at h ⊢ with _ _ _ h4 h4
  all_goals first
    | rfl
    | (exfalso
       simp only [setSubBand_LmHandlerParams, taskLoad_LmHandlerParams, hj] at h4
       exact h4 trivial)

/-- C8: `join(cb)` returns 1 exactly when the node is not joined at the call (the activation
entry is `ACTIVATION_TYPE_NONE`) and 0 exactly when it is joined; `LmHandlerJoin` is called once
when the result is 1 and not at all otherwise; apart from that call and its effect on the
engine, the state after differs from the state before only in the join-callback slot, which
holds `cb`. -/
theorem join_result (env : Env) (s : State) (cb : Handler) :
    ((LoRaWAN_Node.join env s cb).1 = 1 ↔ LoRaWAN_Node.isJoined s = false) ∧
    ((LoRaWAN_Node.join env s cb).1 = 0 ↔ LoRaWAN_Node.isJoined s = true) ∧
    (LoRaWAN_Node.isJoined s = false ↔ s.mac.NetworkActivation = .ACTIVATION_TYPE_NONE) ∧
    (LoRaWAN_Node.join env s cb).2 =
      (if (LoRaWAN_Node.join env s cb).1 = 1 then
        { s with
          loraJoinCb := cb
          mac := env.LmHandlerJoin s.LmHandlerParams s.mac
          calls := s.calls ++ [Call.LmHandlerJoin] }
      else { s with loraJoinCb := cb }) ∧
    (LoRaWAN_Node.join env s cb).2.calls.count Call.LmHandlerJoin =
      s.calls.count Call.LmHandlerJoin + (if (LoRaWAN_Node.join env s cb).1 = 1 then 1 else 0) := by
  unfold LoRaWAN_Node.join LoRaWAN_Node.isJoined LoRaMacMibGetRequestConfirm_NetworkActivation
  by_cases hn : s.mac.NetworkActivation = .ACTIVATION_TYPE_NONE
  · simp [hn]
  · simp [hn]

/-- C9: for a node built by the ABP constructor, whatever `dataRate`, `txEirp`, `adr` and
`dutyCycle`: if `init` returns `true`, then `isJoined` on the state `init` leaves returns
`true`, the information base being a store whose `MIB_NETWORK_ACTIVATION` entry is read back as
set. -/
theorem init_ABP_isJoined (build : Build) (env : Env) (s0 : State) (devAddr : Nat)
    (nwkSKey appSKey : List Nat) (classType : DeviceClass_t) (dataRate txEirp : Int)
    (adr dutyCycle : Bool)
    (h : (LoRaWAN_Node.init build env
      (LoRaWAN_Node.LoRaWAN_Node_ABP s0 devAddr nwkSKey appSKey classType)
      dataRate txEirp adr dutyCycle).1 = true) :
    LoRaWAN_Node.isJoined (LoRaWAN_Node.init build env
      (LoRaWAN_Node.LoRaWAN_Node_ABP s0 devAddr nwkSKey appSKey classType)
      dataRate txEirp adr dutyCycle).2 = true := by
  have ha := init_ABP_activation build env
    (LoRaWAN_Node.LoRaWAN_Node_ABP s0 devAddr nwkSKey appSKey classType)
    dataRate txEirp adr dutyCycle rfl h
  unfold LoRaWAN_Node.isJoined LoRaMacMibGetRequestConfirm_NetworkActivation
  rw [ha]
  rfl

/-- C9 on the US915 build with an ABP node built on `state0`, data rate 3 and 16 dBm. -/
theorem init_ABP_isJoined_witness :
    (LoRaWAN_Node.init .REGION_US915 envOk
      (LoRaWAN_Node.LoRaWAN_Node_ABP state0 0x26011BDA (List.replicate 16 4)
        (List.replicate 16 5) .CLASS_A) 3 16 false false).1 = true ∧
    LoRaWAN_Node.isJoined (LoRaWAN_Node.init .REGION_US915 envOk
      (LoRaWAN_Node.LoRaWAN_Node_ABP state0 0x26011BDA (List.replicate 16 4)
        (List.replicate 16 5) .CLASS_A) 3 16 false false).2 = true :=
  ⟨by decide, init_ABP_isJoined .REGION_US915 envOk state0 0x26011BDA (List.replicate 16 4)
    (List.replicate 16 5) .CLASS_A 3 16 false false (by decide)⟩

/-- C10 (the code departs from it): when `xTaskCreate` returns zero, `taskLoad` returns `false`
and leaves no worker handle, yet `init` on the OTAA node returns `true` as soon as the engine
initialisation succeeds, on the EU868 build and on the US915 build alike. -/
theorem init_true_although_taskLoad_false :
    (taskLoad envNoWorker otaaNode).1 = false ∧
    (taskLoad envNoWorker otaaNode).2.loraTaskHandle = none ∧
    (LoRaWAN_Node.init .REGION_EU868 envNoWorker otaaNode 0 16 false false).1 = true ∧
    (LoRaWAN_Node.init .REGION_US915 envNoWorker otaaNode 3 16 false false).1 = true := by
  refine ⟨?_, ?_, ?_, ?_⟩ <;> decide

/-! ## Sub-band masks, continued -/

/-- Whatever the `switch` of `setSubBand` produces is a six-word mask to be copied over six
words. -/
theorem subBandChannelMask_length (region : LoRaMacRegion_t) (b : Nat) (mask : List Nat)
    (len : Nat) (h : subBandChannelMask region b = some (mask, len)) :
    len = 6 ∧ mask.length = 6 := by
  unfold subBandChannelMask at h
  cases region <;> simp only [] at h
  case LORAMAC_REGION_EU868 => exact absurd h (by simp)
  case LORAMAC_REGION_OTHER => exact absurd h (by simp)
  all_goals
    split_ifs at h <;>
    · simp only [Option.some.injEq, Prod.mk.injEq] at h
      obtain ⟨rfl, rfl⟩ := h
      simp

/-- C11 (the code departs from it): in the CN470 region, whose branch of `setSubBand` bounds
the sub-band by 12 and would produce for 9, 10, 11 and 12 the masks with `0x00FF` or `0xFF00`
in word 4 or 5, `setSubBand` returns `false` for each of them and leaves the state as it was:
the check at its top rejects everything above 8. -/
theorem setSubBand_CN470_extended_rejected :
    stateCN470.mac.Contexts.Region = .LORAMAC_REGION_CN470 ∧
    subBandChannelMask .LORAMAC_REGION_CN470 9 = some ([0, 0, 0, 0, 0x00FF, 0], 6) ∧
    subBandChannelMask .LORAMAC_REGION_CN470 10 = some ([0, 0, 0, 0, 0xFF00, 0], 6) ∧
    subBandChannelMask .LORAMAC_REGION_CN470 11 = some ([0, 0, 0, 0, 0, 0x00FF], 6) ∧
    subBandChannelMask .LORAMAC_REGION_CN470 12 = some ([0, 0, 0, 0, 0, 0xFF00], 6) ∧
    LoRaWAN_Node.setSubBand stateCN470 9 = (false, stateCN470) ∧
    LoRaWAN_Node.setSubBand stateCN470 10 = (false, stateCN470) ∧
    LoRaWAN_Node.setSubBand stateCN470 11 = (false, stateCN470) ∧
    LoRaWAN_Node.setSubBand stateCN470 12 = (false, stateCN470) := by
  refine ⟨rfl, ?_, ?_, ?_, ?_, ?_, ?_, ?_, ?_⟩ <;> decide

/-- C12: on six-word masks, whenever `setSubBand b` returns `true` the three masks of the
engine's context all hold the one computed six-word mask afterwards, so they are equal word
for word and every channel of the remaining mask is in the current mask and every channel of
the current mask is in the default mask; whenever it returns `false` the state, and with it
each of the three masks, is the one before the call. -/
theorem setSubBand_all_or_nothing (s : State) (b : Nat)
    (hd : s.mac.Contexts.ChannelsDefaultMask.length = 6)
    (hc : s.mac.Contexts.ChannelsMask.length = 6)
    (hrem : s.mac.Contexts.ChannelsMaskRemaining.length = 6) :
    ((LoRaWAN_Node.setSubBand s b).1 = true →
      ∃ mask, subBandChannelMask s.mac.Contexts.Region b = some (mask, 6) ∧ mask.length = 6 ∧
        (LoRaWAN_Node.setSubBand s b).2.mac.Contexts.ChannelsDefaultMask = mask ∧
        (LoRaWAN_Node.setSubBand s b).2.mac.Contexts.ChannelsMask = mask ∧
        (LoRaWAN_Node.setSubBand s b).2.mac.Contexts.ChannelsMaskRemaining = mask ∧
        (∀ c, channelEnabled
            (LoRaWAN_Node.setSubBand s b).2.mac.Contexts.ChannelsMaskRemaining c = true →
          channelEnabled (LoRaWAN_Node.setSubBand s b).2.mac.Contexts.ChannelsMask c = true) ∧
        (∀ c, channelEnabled (LoRaWAN_Node.setSubBand s b).2.mac.Contexts.ChannelsMask c = true →
          channelEnabled
            (LoRaWAN_Node.setSubBand s b).2.mac.Contexts.ChannelsDefaultMask c = true)) ∧
    ((LoRaWAN_Node.setSubBand s b).1 = false → LoRaWAN_Node.setSubBand s b = (false, s)) := by
  by_cases hg : b < 1 ∨ b > 8
  · have e : LoRaWAN_Node.setSubBand s b = (false, s) := by
      unfold LoRaWAN_Node.setSubBand
      rw [if_pos hg]
    rw [e]
    exact ⟨fun h => absurd h (by simp), fun _ => rfl⟩
  · cases hm : subBandChannelMask s.mac.Contexts.Region b with
    | none =>
      have e : LoRaWAN_Node.setSubBand s b = (false, s) := by
        unfold LoRaWAN_Node.setSubBand
        rw [if_neg hg]
        simp [LoRaMacMibGetRequestConfirm_Contexts, hm]
      rw [e]
      exact ⟨fun h => absurd h (by simp), fun _ => rfl⟩
    | some p =>
      obtain ⟨mask, len⟩ := p
      obtain ⟨rfl, hl⟩ := subBandChannelMask_length _ _ _ _ hm
      obtain ⟨hret, h1m, h2m, h3m⟩ := setSubBand_writes s b mask 6 (by omega) (by omega) hm
      rw [RegionCommonChanMaskCopy_six _ _ hd hl] at h1m
      rw [RegionCommonChanMaskCopy_six _ _ hc hl] at h2m
      rw [RegionCommonChanMaskCopy_six _ _ hrem hl] at h3m
      refine ⟨fun _ => ⟨mask, rfl, hl, h1m, h2m, h3m, ?_, ?_⟩, fun h => ?_⟩
      · intro c hcen
        rw [h2m]
        rw [h3m] at hcen
        exact hcen
      · intro c hcen
        rw [h1m]
        rw [h2m] at hcen
        exact hcen
      · rw [hret] at h
        exact absurd h (by simp)

/-- C12 at sub-band 2 on the US915 state `state0`. -/
theorem setSubBand_all_or_nothing_witness :
    ((LoRaWAN_Node.setSubBand state0 2).1 = true →
      ∃ mask, subBandChannelMask state0.mac.Contexts.Region 2 = some (mask, 6) ∧
        mask.length = 6 ∧
        (LoRaWAN_Node.setSubBand state0 2).2.mac.Contexts.ChannelsDefaultMask = mask ∧
        (LoRaWAN_Node.setSubBand state0 2).2.mac.Contexts.ChannelsMask = mask ∧
        (LoRaWAN_Node.setSubBand state0 2).2.mac.Contexts.ChannelsMaskRemaining = mask ∧
        (∀ c, channelEnabled
            (LoRaWAN_Node.setSubBand state0 2).2.mac.Contexts.ChannelsMaskRemaining c = true →
          channelEnabled
            (LoRaWAN_Node.setSubBand state0 2).2.mac.Contexts.ChannelsMask c = true) ∧
        (∀ c, channelEnabled
            (LoRaWAN_Node.setSubBand state0 2).2.mac.Contexts.ChannelsMask c = true →
          channelEnabled
            (LoRaWAN_Node.setSubBand state0 2).2.mac.Contexts.ChannelsDefaultMask c = true)) ∧
    ((LoRaWAN_Node.setSubBand state0 2).1 = false →
      LoRaWAN_Node.setSubBand state0 2 = (false, state0)) :=
  setSubBand_all_or_nothing state0 2 rfl rfl rfl

/-! ## Callbacks and notifications: proofs -/

/-- C13: registration is last-write-wins.  After `setTxCB(cb1)` then `setTxCB(cb2)` with both
handlers non-null, `OnTxData` with non-null parameters makes exactly one call, to `cb2`; after
`setRxCB(cb1)` then `setRxCB(cb2)`, `OnRxData` with a non-null frame makes exactly one call,
to `cb2`.  No call goes to `cb1` unless it is the same handler as `cb2`. -/
theorem callbacks_last_write_wins (build : Build) (ev : EventEnv) (s : State) (cb1 cb2 : Nat)
    (p : LmHandlerTxParams_t) (a : LmHandlerAppData_t) (params : LmHandlerRxParams_t) :
    (OnTxData build ev
        (LoRaWAN_Node.setTxCB (LoRaWAN_Node.setTxCB s (some cb1)).2 (some cb2)).2 (some p)).1 =
      [Invocation.txCB cb2 p.AckReceived p.Datarate
        (toInt8 (OnTxData_txeirp build ev p.TxPower)) p.Channel] ∧
    ((OnTxData build ev
        (LoRaWAN_Node.setTxCB (LoRaWAN_Node.setTxCB s (some cb1)).2 (some cb2)).2
        (some p)).1.map Invocation.handler).count cb1 = (if cb1 = cb2 then 1 else 0) ∧
    ((OnRxData ev
        (LoRaWAN_Node.setRxCB (LoRaWAN_Node.setRxCB s (some cb1)).2 (some cb2)).2 (some a)
        params).1.map Invocation.handler) = [cb2] ∧
    ((OnRxData ev
        (LoRaWAN_Node.setRxCB (LoRaWAN_Node.setRxCB s (some cb1)).2 (some cb2)).2 (some a)
        params).1.map Invocation.handler).count cb1 = (if cb1 = cb2 then 1 else 0) := by
  refine ⟨rfl, ?_, rfl, ?_⟩
  · show ([cb2] : List Nat).count cb1 = _
    by_cases h : cb1 = cb2
    · simp [h]
    · have h2 : ¬ cb2 = cb1 := fun e => h e.symm
      simp [h, h2]
  · show ([cb2] : List Nat).count cb1 = _
    by_cases h : cb1 = cb2
    · simp [h]
    · have h2 : ¬ cb2 = cb1 := fun e => h e.symm
      simp [h, h2]

/-- C14, as stated, fails for `OnJoinRequest`: on `state0`, whose join-callback slot is empty
and whose engine runs at data rate 3 with a configured data rate 0, a join notification calls
no callback but leaves the engine at data rate 0, so the state is not the one before. -/
theorem OnJoinRequest_empty_slot_changes_datarate :
    state0.loraJoinCb = none ∧
    state0.mac.ChannelsDatarate = 3 ∧
    (OnJoinRequest eventEnv0 state0
      { IsOtaaActivation := true, Status := .LORAMAC_HANDLER_SUCCESS }).1 = [] ∧
    (OnJoinRequest eventEnv0 state0
      { IsOtaaActivation := true, Status := .LORAMAC_HANDLER_SUCCESS }).2.mac.ChannelsDatarate
        = 0 ∧
    (OnJoinRequest eventEnv0 state0
      { IsOtaaActivation := true, Status := .LORAMAC_HANDLER_SUCCESS }).2 ≠ state0 := by
  refine ⟨rfl, rfl, rfl, rfl, ?_⟩
  decide

/-- C14, amended: for each notification handler, with the slot of its own event kind empty
(whatever the other two slots hold), it calls no application callback; `OnMacMlmeRequest`,
`OnTxData` and `OnRxData` then leave the whole state as it was, and `OnJoinRequest` changes
nothing but the channel data rate entry of the information base, which it sets to the
configured `LmHandlerParams.TxDatarate`. -/
theorem notifications_without_handler (build : Build) (ev : EventEnv) (s : State)
    (status : LoRaMacStatus_t) (mlmeReqType : Mlme_t) (jp : LmHandlerJoinParams_t)
    (tp : Option LmHandlerTxParams_t) (a : Option LmHandlerAppData_t)
    (rp : LmHandlerRxParams_t) :
    (s.loraJoinCb = none → OnMacMlmeRequest s status mlmeReqType = ([], s)) ∧
    (s.txCb = none → OnTxData build ev s tp = ([], s)) ∧
    (s.rxCb = none → OnRxData ev s a rp = ([], s)) ∧
    (s.loraJoinCb = none →
      OnJoinRequest ev s jp =
        ([], { s with
          mac := { s.mac with ChannelsDatarate := s.LmHandlerParams.TxDatarate } })) := by
  refine ⟨fun hj => ?_, fun ht => ?_, fun hr => ?_, fun hj => ?_⟩
  · unfold OnMacMlmeRequest
    rw [hj]
    split_ifs <;> rfl
  · unfold OnTxData
    rw [ht]
  · unfold OnRxData
    rw [hr]
  · unfold OnJoinRequest LoRaMacMibSetRequestConfirm_ChannelsDatarate
    simp only [hj]
    split_ifs <;> rfl

/-- C14, amended, on states in which only the slot of the event raised is empty and the two
other slots hold handlers. -/
theorem notifications_without_handler_witness :
    OnMacMlmeRequest stateNoJoinCb (.LORAMAC_STATUS_ERROR 1) .MLME_JOIN = ([], stateNoJoinCb) ∧
    OnTxData .REGION_EU868 eventEnv0 stateNoTxCb (some txParams0) = ([], stateNoTxCb) ∧
    OnRxData eventEnv0 stateNoRxCb (some appData0) rxParams0 = ([], stateNoRxCb) ∧
    OnJoinRequest eventEnv0 stateNoJoinCb
        { IsOtaaActivation := true, Status := .LORAMAC_HANDLER_SUCCESS } =
      ([], { stateNoJoinCb with
        mac := { stateNoJoinCb.mac with
          ChannelsDatarate := stateNoJoinCb.LmHandlerParams.TxDatarate } }) :=
  ⟨(notifications_without_handler .REGION_EU868 eventEnv0 stateNoJoinCb
      (.LORAMAC_STATUS_ERROR 1) .MLME_JOIN
      { IsOtaaActivation := true, Status := .LORAMAC_HANDLER_SUCCESS }
      (some txParams0) (some appData0) rxParams0).1 rfl,
    (notifications_without_handler .REGION_EU868 eventEnv0 stateNoTxCb
      (.LORAMAC_STATUS_ERROR 1) .MLME_JOIN
      { IsOtaaActivation := true, Status := .LORAMAC_HANDLER_SUCCESS }
      (some txParams0) (some appData0) rxParams0).2.1 rfl,
    (notifications_without_handler .REGION_EU868 eventEnv0 stateNoRxCb
      (.LORAMAC_STATUS_ERROR 1) .MLME_JOIN
      { IsOtaaActivation := true, Status := .LORAMAC_HANDLER_SUCCESS }
      (some txParams0) (some appData0) rxParams0).2.2.1 rfl,
    (notifications_without_handler .REGION_EU868 eventEnv0 stateNoJoinCb
      (.LORAMAC_STATUS_ERROR 1) .MLME_JOIN
      { IsOtaaActivation := true, Status := .LORAMAC_HANDLER_SUCCESS }
      (some txParams0) (some appData0) rxParams0).2.2.2 rfl⟩

/-- C19: `setRxCB` and `setTxCB` called with `NULL` return `false` and leave the state, hence
the slot and what the next notification calls, as it was; called with a non-null handler they
return `true` and the slot holds that handler, nothing else being changed. -/
theorem setCB_null_rejected (build : Build) (ev : EventEnv) (s : State) (h : Nat)
    (tp : Option LmHandlerTxParams_t) (a : Option LmHandlerAppData_t)
    (rp : LmHandlerRxParams_t) :
    LoRaWAN_Node.setRxCB s none = (false, s) ∧
    LoRaWAN_Node.setTxCB s none = (false, s) ∧
    (LoRaWAN_Node.setRxCB s none).2.rxCb = s.rxCb ∧
    (LoRaWAN_Node.setTxCB s none).2.txCb = s.txCb ∧
    OnRxData ev (LoRaWAN_Node.setRxCB s none).2 a rp = OnRxData ev s a rp ∧
    OnTxData build ev (LoRaWAN_Node.setTxCB s none).2 tp = OnTxData build ev s tp ∧
    LoRaWAN_Node.setRxCB s (some h) = (true, { s with rxCb := some h }) ∧
    LoRaWAN_Node.setTxCB s (some h) = (true, { s with txCb := some h }) :=
  ⟨rfl, rfl, rfl, rfl, rfl, rfl, rfl, rfl⟩

/-- C20: with handler `h` in the join-callback slot, `OnJoinRequest` calls `h` exactly once,
with `ok = false` if and only if the activation is OTAA and the status is not success, and
with the RSSI and SNR the engine reports at that point; and `OnMacMlmeRequest` for `MLME_JOIN`
with a status other than OK calls `h` exactly once with `(false, 0, 0)`. -/
theorem join_callback_once (ev : EventEnv) (s : State) (h : Nat)
    (params : LmHandlerJoinParams_t) (status : LoRaMacStatus_t)
    (hs : s.loraJoinCb = some h) (hst : status ≠ .LORAMAC_STATUS_OK) :
    (∃ ok : Bool,
      (OnJoinRequest ev s params).1 =
        [Invocation.joinCallback h ok
          (ev.LoRaMacMcLastDataRssi (OnJoinRequest ev s params).2.mac)
          (ev.LoRaMacMcLastDataSnr (OnJoinRequest ev s params).2.mac)] ∧
      (ok = false ↔
        (params.IsOtaaActivation = true ∧ params.Status ≠ .LORAMAC_HANDLER_SUCCESS))) ∧
    (OnMacMlmeRequest s status .MLME_JOIN).1 = [Invocation.joinCallback h false 0 0] := by
  constructor
  · unfold OnJoinRequest
    simp only [hs]
    by_cases ho : params.IsOtaaActivation = true
    · by_cases hp : params.Status = .LORAMAC_HANDLER_SUCCESS
      · exact ⟨true, by simp [ho, hp], by simp [hp]⟩
      · exact ⟨false, by simp [ho, hp], by simp [ho, hp]⟩
    · exact ⟨true, by simp [ho], by simp [ho]⟩
  · unfold OnMacMlmeRequest
    simp [hs, hst]

/-- C20 on `stateJoinCb` (handler 7): a failed OTAA join, and a join request the engine
refused with status code 1. -/
theorem join_callback_once_witness :
    (∃ ok : Bool,
      (OnJoinRequest eventEnv0 stateJoinCb
          { IsOtaaActivation := true, Status := .LORAMAC_HANDLER_ERROR (-1) }).1 =
        [Invocation.joinCallback 7 ok
          (eventEnv0.LoRaMacMcLastDataRssi (OnJoinRequest eventEnv0 stateJoinCb
            { IsOtaaActivation := true, Status := .LORAMAC_HANDLER_ERROR (-1) }).2.mac)
          (eventEnv0.LoRaMacMcLastDataSnr (OnJoinRequest eventEnv0 stateJoinCb
            { IsOtaaActivation := true, Status := .LORAMAC_HANDLER_ERROR (-1) }).2.mac)] ∧
      (ok = false ↔
        ((LmHandlerJoinParams_t.mk true (.LORAMAC_HANDLER_ERROR (-1))).IsOtaaActivation = true ∧
          (LmHandlerJoinParams_t.mk true (.LORAMAC_HANDLER_ERROR (-1))).Status ≠
            .LORAMAC_HANDLER_SUCCESS))) ∧
    (OnMacMlmeRequest stateJoinCb (.LORAMAC_STATUS_ERROR 1) .MLME_JOIN).1 =
      [Invocation.joinCallback 7 false 0 0] :=
  join_callback_once eventEnv0 stateJoinCb 7
    { IsOtaaActivation := true, Status := .LORAMAC_HANDLER_ERROR (-1) }
    (.LORAMAC_STATUS_ERROR 1) rfl (by decide)

/-! ## The payload cipher: proofs -/

/-- The exclusive-or cipher undoes itself on the first `size` bytes. -/
theorem xorCipher_inverts (buffer : List Nat) (size : Nat) (key : List Nat)
    (address dir sequenceCounter : Nat) :
    (xorCipher.LoRaMacPayloadDecrypt
      (xorCipher.LoRaMacPayloadEncrypt buffer size key address dir sequenceCounter)
      size key address dir sequenceCounter).take size = buffer.take size := by
  simp only [xorCipher, List.map_take, List.take_take, List.map_map, Nat.min_self]
  have hf : ((fun x => x ^^^ key.getD 0 0) ∘ fun x => x ^^^ key.getD 0 0) = id := by
    funext x
    simp [Nat.xor_cancel_right]
  rw [hf, List.map_id]

/-- Every public operation keeps the enable flag once it is set. -/
theorem run_keeps_isEncryption (env : Env) (cipher : Cipher) (s : RadioState) (op : RadioOp)
    (h : s.isEncryption = true) : (RadioOp.run env cipher s op).isEncryption = true := by
  by_cases hh : s.halted = true
  · unfold RadioOp.run
    rw [if_pos hh]
    exact h
  · unfold RadioOp.run
    rw [if_neg hh]
    cases op with
    | init =>
      simp only [DFRobot_LoRaRadio.init, lorataskLoad]
      split_ifs <;> split <;> exact h
    | sendData data size =>
      simp only [DFRobot_LoRaRadio.sendData]
      rw [if_pos h]
      exact h
    | setEncryptKey key => rfl
    | _ => exact h

/-- Every sequence of public operations keeps the enable flag once it is set. -/
theorem runOps_keeps_isEncryption (env : Env) (cipher : Cipher) (ops : List RadioOp) :
    ∀ s : RadioState, s.isEncryption = true → (runOps env cipher s ops).isEncryption = true := by
  induction ops with
  | nil => intro s h; exact h
  | cons op rest ih =>
    intro s h
    exact ih (RadioOp.run env cipher s op) (run_keeps_isEncryption env cipher s op h)

/-- C15: the payload cipher round trip.  For every cipher whose decryption undoes its
encryption on the first `size` bytes under equal key, address, direction and counter, once
`setEncryptKey` has set a key and `setRxCB` a receive callback `h`: `sendData(data, size)` hands
the radio one buffer with that `size`, and `loraRxCb` on that buffer and size calls `h` exactly
once, with the same size and with the `size` bytes of `data`. -/
theorem cipher_round_trip (cipher : Cipher) (s : RadioState) (key data : List Nat)
    (size h : Nat) (rssi snr : Int)
    (hinv : ∀ buffer n k address dir counter,
      (cipher.LoRaMacPayloadDecrypt
        (cipher.LoRaMacPayloadEncrypt buffer n k address dir counter)
        n k address dir counter).take n = buffer.take n)
    (hsize : size ≤ 255) :
    ∃ sent delivered : List Nat,
      (DFRobot_LoRaRadio.sendData cipher
          (DFRobot_LoRaRadio.setRxCB (DFRobot_LoRaRadio.setEncryptKey s key) (some h))
          data size).radioCalls =
        (DFRobot_LoRaRadio.setRxCB (DFRobot_LoRaRadio.setEncryptKey s key)
          (some h)).radioCalls ++ [RadioCall.Send sent size] ∧
      loraRxCb cipher
          (DFRobot_LoRaRadio.sendData cipher
            (DFRobot_LoRaRadio.setRxCB (DFRobot_LoRaRadio.setEncryptKey s key) (some h))
            data size)
          sent size rssi snr =
        [{ h := h, payload := delivered, size := size, rssi := rssi, snr := snr }] ∧
      delivered.take size = data.take size := by
  have _ := hsize
  exact ⟨_, _, rfl, rfl, hinv _ _ _ _ _ _⟩

/-- C15 with the exclusive-or cipher, the key `key0` and a three-byte payload. -/
theorem cipher_round_trip_witness :
    ∃ sent delivered : List Nat,
      (DFRobot_LoRaRadio.sendData xorCipher
          (DFRobot_LoRaRadio.setRxCB (DFRobot_LoRaRadio.setEncryptKey radio0 key0) (some 4))
          [0x10, 0x20, 0x30] 3).radioCalls =
        (DFRobot_LoRaRadio.setRxCB (DFRobot_LoRaRadio.setEncryptKey radio0 key0)
          (some 4)).radioCalls ++ [RadioCall.Send sent 3] ∧
      loraRxCb xorCipher
          (DFRobot_LoRaRadio.sendData xorCipher
            (DFRobot_LoRaRadio.setRxCB (DFRobot_LoRaRadio.setEncryptKey radio0 key0) (some 4))
            [0x10, 0x20, 0x30] 3)
          sent 3 (-70) 8 =
        [{ h := 4, payload := delivered, size := 3, rssi := -70, snr := 8 }] ∧
      delivered.take 3 = [0x10, 0x20, 0x30].take 3 :=
  cipher_round_trip xorCipher radio0 key0 [0x10, 0x20, 0x30] 3 4 (-70) 8 xorCipher_inverts
    (by decide)

/-- C16: `setEncryptKey(key)` sets the enable flag and overwrites exactly the first sixteen
bytes of `dataKey` with those of `key`, and after it the flag stays set through every sequence
of public operations of `DFRobot_LoRaRadio`; a later `setEncryptKey` replaces the key and
leaves the flag set. -/
theorem encryption_irreversible (env : Env) (cipher : Cipher) (s : RadioState)
    (key key2 : List Nat) (ops : List RadioOp) (hk : 16 ≤ key.length) :
    (DFRobot_LoRaRadio.setEncryptKey s key).isEncryption = true ∧
    (DFRobot_LoRaRadio.setEncryptKey s key).dataKey.take 16 = key.take 16 ∧
    (DFRobot_LoRaRadio.setEncryptKey s key).dataKey.drop 16 = s.dataKey.drop 16 ∧
    (runOps env cipher (DFRobot_LoRaRadio.setEncryptKey s key) ops).isEncryption = true ∧
    (DFRobot_LoRaRadio.setEncryptKey (runOps env cipher (DFRobot_LoRaRadio.setEncryptKey s key)
      ops) key2).isEncryption = true ∧
    (DFRobot_LoRaRadio.setEncryptKey (runOps env cipher (DFRobot_LoRaRadio.setEncryptKey s key)
      ops) key2).dataKey =
      memcpy (runOps env cipher (DFRobot_LoRaRadio.setEncryptKey s key) ops).dataKey key2 16 := by
  have hlen : (key.take 16).length = 16 := by
    rw [List.length_take]
    omega
  refine ⟨rfl, ?_, ?_, runOps_keeps_isEncryption env cipher ops _ rfl, rfl, rfl⟩
  · show (key.take 16 ++ s.dataKey.drop 16).take 16 = key.take 16
    rw [List.take_append_of_le_length (by omega)]
    rw [List.take_take]
    simp
  · show (key.take 16 ++ s.dataKey.drop 16).drop 16 = s.dataKey.drop 16
    rw [List.drop_append_of_le_length (by omega)]
    rw [List.drop_eq_nil_of_le (by omega)]
    rfl

/-- C16 on `radio0` with `key0`, followed by a send, a deep sleep and a re-keying attempt. -/
theorem encryption_irreversible_witness :
    (DFRobot_LoRaRadio.setEncryptKey radio0 key0).isEncryption = true ∧
    (DFRobot_LoRaRadio.setEncryptKey radio0 key0).dataKey.take 16 = key0.take 16 ∧
    (DFRobot_LoRaRadio.setEncryptKey radio0 key0).dataKey.drop 16 = radio0.dataKey.drop 16 ∧
    (runOps envOk xorCipher (DFRobot_LoRaRadio.setEncryptKey radio0 key0)
      [.init, .sendData [1, 2] 2, .stopRx, .deepSleepMs 1000]).isEncryption = true ∧
    (DFRobot_LoRaRadio.setEncryptKey (runOps envOk xorCipher
      (DFRobot_LoRaRadio.setEncryptKey radio0 key0)
      [.init, .sendData [1, 2] 2, .stopRx, .deepSleepMs 1000])
      (List.replicate 16 1)).isEncryption = true ∧
    (DFRobot_LoRaRadio.setEncryptKey (runOps envOk xorCipher
      (DFRobot_LoRaRadio.setEncryptKey radio0 key0)
      [.init, .sendData [1, 2] 2, .stopRx, .deepSleepMs 1000])
      (List.replicate 16 1)).dataKey =
      memcpy (runOps envOk xorCipher (DFRobot_LoRaRadio.setEncryptKey radio0 key0)
        [.init, .sendData [1, 2] 2, .stopRx, .deepSleepMs 1000]).dataKey
        (List.replicate 16 1) 16 :=
  encryption_irreversible envOk xorCipher radio0 key0 (List.replicate 16 1)
    [.init, .sendData [1, 2] 2, .stopRx, .deepSleepMs 1000] (by decide)

/-! ## The free-slot scan: proofs -/

/-- The bit test of the scan loop is the test `channelEnabled` makes. -/
theorem scan_test_iff (mask : List Nat) (k : Nat) :
    ((mask.getD (k / 16) 0 >>> (k % 16)) &&& 0x01 = 0x01) ↔ channelEnabled mask k = true := by
  simp [channelEnabled, Nat.and_one_is_mod]

/-- The loop invariant of the scan: entered at bit `k` with `id = k`, `i = k / 16` and
`j = k % 16`, all bits from `k` up to `k0` set and bit `k0` clear, the loop ends with
`chanIdx = k0` after testing the bits `k, ..., k0` in that order. -/
theorem scanLoop_first_clear (mask : List Nat) (k0 : Nat) (hk0 : k0 < 96)
    (hclear : channelEnabled mask k0 = false)
    (hset : ∀ c, c < k0 → channelEnabled mask c = true) :
    ∀ (n k : Nat) (st : ScanState), k + n = 96 → k ≤ k0 → st.id = k → st.i = k / 16 →
      st.j = k % 16 →
      (scanLoop mask n st).chanIdx = k0 ∧
      (scanLoop mask n st).visited =
        st.visited ++ (List.range' k (k0 + 1 - k)).map (fun c => (c / 16, c % 16)) := by
  intro n
  induction n with
  | zero =>
    intro k st hkn hle
    omega
  | succ n ih =>
    intro k st hkn hle hid hi hj
    rw [scanLoop]
    simp only [hi, hj, scan_test_iff]
    rcases Nat.lt_or_ge k k0 with hlt | hge
    · have hen := hset k hlt
      rw [if_pos hen]
      have hlen : k0 + 1 - k = (k0 + 1 - (k + 1)) + 1 := by omega
      by_cases h15 : k % 16 = 15
      · rw [if_pos h15]
        obtain ⟨h1, h2⟩ := ih (k + 1)
          { id := (st.id + 1) % 256, chanIdx := st.chanIdx, i := (k / 16 + 1) % 256, j := 0,
            visited := st.visited ++ [(k / 16, k % 16)] }
          (by omega) (by omega) (by simp only [hid]; omega) (by simp only; omega)
          (by simp only; omega)
        refine ⟨h1, ?_⟩
        rw [h2, hlen, List.range'_succ]
        simp
      · rw [if_neg h15]
        obtain ⟨h1, h2⟩ := ih (k + 1)
          { id := (st.id + 1) % 256, chanIdx := st.chanIdx, i := k / 16, j := (k % 16 + 1) % 256,
            visited := st.visited ++ [(k / 16, k % 16)] }
          (by omega) (by omega) (by simp only [hid]; omega) (by simp only; omega)
          (by simp only; omega)
        refine ⟨h1, ?_⟩
        rw [h2, hlen, List.range'_succ]
        simp
    · have hk : k = k0 := by omega
      subst hk
      have hne : ¬ channelEnabled mask k = true := by simp [hclear]
      rw [if_neg hne]
      refine ⟨hid, ?_⟩
      have h1 : k + 1 - k = 1 := by omega
      simp [h1]

/-- The scan over a mask whose 96 bits are all set: entered at bit `k` with `id = k`,
`i = k / 16` and `j = k % 16`, the loop makes all the tests left and never assigns
`chanIdx`. -/
theorem scanLoop_all_set (mask : List Nat)
    (hall : ∀ c, c < 96 → channelEnabled mask c = true) :
    ∀ (n k : Nat) (st : ScanState), k + n = 96 → st.id = k → st.i = k / 16 → st.j = k % 16 →
      (scanLoop mask n st).chanIdx = st.chanIdx ∧
      (scanLoop mask n st).visited.length = st.visited.length + n := by
  intro n
  induction n with
  | zero =>
    intro k st _ _ _ _
    rw [scanLoop]
    exact ⟨rfl, rfl⟩
  | succ n ih =>
    intro k st hkn hid hi hj
    rw [scanLoop]
    simp only [hi, hj, scan_test_iff]
    rw [if_pos (hall k (by omega))]
    by_cases h15 : k % 16 = 15
    · rw [if_pos h15]
      obtain ⟨h1, h2⟩ := ih (k + 1)
        { id := (st.id + 1) % 256, chanIdx := st.chanIdx, i := (k / 16 + 1) % 256, j := 0,
          visited := st.visited ++ [(k / 16, k % 16)] }
        (by omega) (by simp only [hid]; omega) (by simp only; omega) (by simp only; omega)
      refine ⟨h1, ?_⟩
      rw [h2]
      simp only [List.length_append, List.length_singleton]
      omega
    · rw [if_neg h15]
      obtain ⟨h1, h2⟩ := ih (k + 1)
        { id := (st.id + 1) % 256, chanIdx := st.chanIdx, i := k / 16, j := (k % 16 + 1) % 256,
          visited := st.visited ++ [(k / 16, k % 16)] }
        (by omega) (by simp only [hid]; omega) (by simp only; omega) (by simp only; omega)
      refine ⟨h1, ?_⟩
      rw [h2]
      simp only [List.length_append, List.length_singleton]
      omega

set_option maxRecDepth 100000 in
/-- C17, as stated, fails: over the all-ones mask of six words the scan of `addChannel` tests
all 96 bits and ends with the channel identifier 0, which is a slot index below 96 and is the
identifier the scan yields over the all-zero mask after one test; the two masks produce the
same identifier. -/
theorem addChannel_scan_full_mask_yields_zero :
    (addChannel_scan (List.replicate 6 0xFFFF)).chanIdx = 0 ∧
    (addChannel_scan (List.replicate 6 0xFFFF)).visited.length = 96 ∧
    (addChannel_scan (List.replicate 6 0)).chanIdx = 0 ∧
    (addChannel_scan (List.replicate 6 0)).visited = [(0, 0)] ∧
    (addChannel_scan (List.replicate 6 0xFFFF)).chanIdx < 96 ∧
    (addChannel_scan (List.replicate 6 0xFFFF)).chanIdx =
      (addChannel_scan (List.replicate 6 0)).chanIdx := by
  refine ⟨?_, ?_, ?_, ?_, ?_, ?_⟩ <;> decide

/-- C17, amended: the scan of `addChannel` has no result of its own for a full mask.  Over
every mask whose 96 bits are all set it tests all 96 bits and the channel identifier keeps its
initial value 0; over the all-zero mask it yields index 0 too; so on every build, and whatever
the engine answers, `addChannel` builds for a full mask the request it builds for the all-zero
mask, with channel identifier 0, and returns the same result. -/
theorem addChannel_scan_no_full_indication (build : Build) (DR_5 DR_0 : Nat)
    (RegionEU868ChannelAdd : ChannelAddParams_t → LoRaMacStatus_t) (freq : Nat)
    (mask : List Nat) (hall : ∀ c, c < 96 → channelEnabled mask c = true) :
    (addChannel_scan mask).chanIdx = 0 ∧
    (addChannel_scan mask).visited.length = 96 ∧
    (addChannel_scan (List.replicate 6 0)).chanIdx = 0 ∧
    (LoRaWAN_Node.addChannel build DR_5 DR_0 RegionEU868ChannelAdd mask freq).2.ChannelId = 0 ∧
    LoRaWAN_Node.addChannel build DR_5 DR_0 RegionEU868ChannelAdd mask freq =
      LoRaWAN_Node.addChannel build DR_5 DR_0 RegionEU868ChannelAdd (List.replicate 6 0)
        freq := by
  obtain ⟨h1, h2⟩ := scanLoop_all_set mask hall 96 0
    { id := 0, chanIdx := 0, i := 0, j := 0, visited := [] } rfl rfl rfl rfl
  have hfull : (addChannel_scan mask).chanIdx = 0 := h1
  have hlen : (addChannel_scan mask).visited.length = 96 := h2
  have hzero : (addChannel_scan (List.replicate 6 0)).chanIdx = 0 := by decide
  refine ⟨hfull, hlen, hzero, ?_, ?_⟩
  · unfold LoRaWAN_Node.addChannel
    simp only [hfull]
    split_ifs <;> rfl
  · unfold LoRaWAN_Node.addChannel
    simp only [hfull, hzero]

/-- C17, amended, on the all-ones mask of six words, on the CN470 build with an engine that
refuses every channel. -/
theorem addChannel_scan_no_full_indication_witness :
    (addChannel_scan (List.replicate 6 0xFFFF)).chanIdx = 0 ∧
    (addChannel_scan (List.replicate 6 0xFFFF)).visited.length = 96 ∧
    (addChannel_scan (List.replicate 6 0)).chanIdx = 0 ∧
    (LoRaWAN_Node.addChannel .REGION_CN470 5 0 (fun _ => .LORAMAC_STATUS_ERROR 3)
      (List.replicate 6 0xFFFF) 470300000).2.ChannelId = 0 ∧
    LoRaWAN_Node.addChannel .REGION_CN470 5 0 (fun _ => .LORAMAC_STATUS_ERROR 3)
        (List.replicate 6 0xFFFF) 470300000 =
      LoRaWAN_Node.addChannel .REGION_CN470 5 0 (fun _ => .LORAMAC_STATUS_ERROR 3)
        (List.replicate 6 0) 470300000 :=
  addChannel_scan_no_full_indication .REGION_CN470 5 0 (fun _ => .LORAMAC_STATUS_ERROR 3)
    470300000 (List.replicate 6 0xFFFF) (by decide)

/-- C18: for every mask with a clear bit among its first 96, the channel identifier the scan
of `addChannel` computes is the smallest `k` below 96 whose bit `k mod 16` of word `k div 16`
is clear; the scan tests the bits `0, 1, ..., k` in this order, so it reads no word beyond
index 5 and makes at most 96 tests. -/
theorem addChannel_scan_first_clear (mask : List Nat)
    (h : ∃ c, c < 96 ∧ channelEnabled mask c = false) :
    (addChannel_scan mask).chanIdx < 96 ∧
    channelEnabled mask (addChannel_scan mask).chanIdx = false ∧
    (∀ c, c < (addChannel_scan mask).chanIdx → channelEnabled mask c = true) ∧
    (addChannel_scan mask).visited =
      (List.range ((addChannel_scan mask).chanIdx + 1)).map (fun c => (c / 16, c % 16)) ∧
    (∀ p, p ∈ (addChannel_scan mask).visited → p.1 ≤ 5 ∧ p.2 ≤ 15) ∧
    (addChannel_scan mask).visited.length ≤ 96 := by
  classical
  have hex : ∃ c, c < 96 ∧ channelEnabled mask c = false := h
  let k0 := Nat.find hex
  have hk0 : k0 < 96 ∧ channelEnabled mask k0 = false := Nat.find_spec hex
  have hmin : ∀ c, c < k0 → channelEnabled mask c = true := by
    intro c hc
    have hnot := Nat.find_min hex hc
    by_cases hcen : channelEnabled mask c = true
    · exact hcen
    · exact absurd ⟨by omega, by simpa using hcen⟩ hnot
  obtain ⟨h1, h2⟩ := scanLoop_first_clear mask k0 hk0.1 hk0.2 hmin 96 0
    { id := 0, chanIdx := 0, i := 0, j := 0, visited := [] } rfl (Nat.zero_le _) rfl rfl rfl
  have hidx : (addChannel_scan mask).chanIdx = k0 := h1
  have hvis : (addChannel_scan mask).visited =
      (List.range (k0 + 1)).map (fun c => (c / 16, c % 16)) := by
    show (scanLoop mask 96 _).visited = _
    rw [h2, List.range_eq_range']
    simp
  rw [hidx, hvis]
  refine ⟨hk0.1, hk0.2, hmin, rfl, ?_, ?_⟩
  · intro p hp
    simp only [List.mem_map, List.mem_range] at hp
    obtain ⟨c, hc, rfl⟩ := hp
    constructor
    · show c / 16 ≤ 5
      omega
    · show c % 16 ≤ 15
      omega
  · simp only [List.length_map, List.length_range]
    omega

/-- C18 on the mask whose first twenty channels are enabled: the identifier is 20. -/
theorem addChannel_scan_first_clear_witness :
    (addChannel_scan [0xFFFF, 0x000F, 0, 0, 0, 0]).chanIdx < 96 ∧
    channelEnabled [0xFFFF, 0x000F, 0, 0, 0, 0]
      (addChannel_scan [0xFFFF, 0x000F, 0, 0, 0, 0]).chanIdx = false ∧
    (∀ c, c < (addChannel_scan [0xFFFF, 0x000F, 0, 0, 0, 0]).chanIdx →
      channelEnabled [0xFFFF, 0x000F, 0, 0, 0, 0] c = true) ∧
    (addChannel_scan [0xFFFF, 0x000F, 0, 0, 0, 0]).visited =
      (List.range ((addChannel_scan [0xFFFF, 0x000F, 0, 0, 0, 0]).chanIdx + 1)).map
        (fun c => (c / 16, c % 16)) ∧
    (∀ p, p ∈ (addChannel_scan [0xFFFF, 0x000F, 0, 0, 0, 0]).visited → p.1 ≤ 5 ∧ p.2 ≤ 15) ∧
    (addChannel_scan [0xFFFF, 0x000F, 0, 0, 0, 0]).visited.length ≤ 96 :=
  addChannel_scan_first_clear [0xFFFF, 0x000F, 0, 0, 0, 0] ⟨20, by decide, by decide⟩

/-! ## Frame counters and worker signals: proofs -/

/-- The semaphore `lorataskLoad` leaves in `loraIntSem` is the one the RTOS created for it. -/
theorem lorataskLoad_loraIntSem (env : Env) (s : RadioState) :
    (lorataskLoad env s).2.loraIntSem = env.xSemaphoreCreateBinary := by
  unfold lorataskLoad
  split_ifs <;> split <;> rfl

/-- C21, as stated, fails above 16 bits: with handler 3 registered and an engine whose uplink
frame counter is 70000, which `getLastUplinkCounter` returns, `OnRxData` calls the handler once
with `uplinkCounter = 4464`. -/
theorem OnRxData_uplinkCounter_truncated :
    stateRxCb.rxCb = some 3 ∧
    LoRaWAN_Node.getLastUplinkCounter eventEnv0 stateRxCb = 70000 ∧
    OnRxData eventEnv0 stateRxCb (some appData0) rxParams0 =
      ([Invocation.rxCB 3 (some [0xCA, 0xFE]) 2 5 (-80) 7 false 4464 12], stateRxCb) ∧
    (4464 : Nat) ≠ LoRaWAN_Node.getLastUplinkCounter eventEnv0 stateRxCb := by
  refine ⟨rfl, ?_, ?_, ?_⟩ <;> decide

/-- C21, amended: with handler `h` registered and a non-null frame, `OnRxData` calls `h`
exactly once, with the frame's buffer, size, port, RSSI, SNR and acknowledgment flag, with
`uplinkCounter` the low 16 bits of the counter `getLastUplinkCounter` returns and with
`downlinkCounter` the low 16 bits of the frame's downlink counter; a counter below 65536 is
passed unchanged. -/
theorem OnRxData_counters_low16 (ev : EventEnv) (s : State) (h : Nat)
    (a : LmHandlerAppData_t) (params : LmHandlerRxParams_t) (hs : s.rxCb = some h) :
    OnRxData ev s (some a) params =
      ([Invocation.rxCB h a.Buffer a.BufferSize a.Port params.Rssi params.Snr params.IsRevACK
        (LoRaWAN_Node.getLastUplinkCounter ev s % 65536) (params.DownlinkCounter % 65536)],
        s) ∧
    (LoRaWAN_Node.getLastUplinkCounter ev s < 65536 →
      LoRaWAN_Node.getLastUplinkCounter ev s % 65536 =
        LoRaWAN_Node.getLastUplinkCounter ev s) ∧
    (params.DownlinkCounter < 65536 → params.DownlinkCounter % 65536 = params.DownlinkCounter) := by
  have hmod : LoRaWAN_Node.getLastUplinkCounter ev s % 65536 =
      toUint16 (ev.GetUplinkCounter s.mac) := by
    unfold LoRaWAN_Node.getLastUplinkCounter toUint32 toUint16
    exact Nat.mod_mod_of_dvd _ (by decide)
  refine ⟨?_, fun hlt => Nat.mod_eq_of_lt hlt, fun hlt => Nat.mod_eq_of_lt hlt⟩
  unfold OnRxData
  rw [hs, hmod]
  rfl

/-- C21, amended, on `stateRxCb` with the uplink counter 70000 and the downlink counter 12. -/
theorem OnRxData_counters_low16_witness :
    OnRxData eventEnv0 stateRxCb (some appData0) rxParams0 =
      ([Invocation.rxCB 3 appData0.Buffer appData0.BufferSize appData0.Port rxParams0.Rssi
        rxParams0.Snr rxParams0.IsRevACK
        (LoRaWAN_Node.getLastUplinkCounter eventEnv0 stateRxCb % 65536)
        (rxParams0.DownlinkCounter % 65536)], stateRxCb) ∧
    (LoRaWAN_Node.getLastUplinkCounter eventEnv0 stateRxCb < 65536 →
      LoRaWAN_Node.getLastUplinkCounter eventEnv0 stateRxCb % 65536 =
        LoRaWAN_Node.getLastUplinkCounter eventEnv0 stateRxCb) ∧
    (rxParams0.DownlinkCounter < 65536 →
      rxParams0.DownlinkCounter % 65536 = rxParams0.DownlinkCounter) :=
  OnRxData_counters_low16 eventEnv0 stateRxCb 3 appData0 rxParams0 rfl

/-- The function `setSubBand` leaves `loraIntSem` alone. -/
theorem setSubBand_loraIntSem (s : State) (b : Nat) :
    (LoRaWAN_Node.setSubBand s b).2.loraIntSem = s.loraIntSem := by
  unfold LoRaWAN_Node.setSubBand
  by_cases hg : b < 1 ∨ b > 8
  · rw [if_pos hg]
  · rw [if_neg hg]
    dsimp only
    cases subBandChannelMask (LoRaMacMibGetRequestConfirm_Contexts s.mac).Region b with
    | none => rfl
    | some p => rfl

/-- The semaphore `taskLoad` leaves in `loraIntSem` is the one the RTOS created for it. -/
theorem taskLoad_loraIntSem (env : Env) (s : State) :
    (taskLoad env s).2.loraIntSem = env.xSemaphoreCreateBinary := by
  unfold taskLoad
  split_ifs <;> split <;> rfl

/-- Once `init` has called `taskLoad`, whatever it returns, `loraIntSem` holds the semaphore
created by that call. -/
theorem init_loraIntSem (build : Build) (env : Env) (s : State) (dataRate txEirp : Int)
    (adr dutyCycle : Bool) (hcall : initCallsTaskLoad build env dataRate = true) :
    (LoRaWAN_Node.init build env s dataRate txEirp adr dutyCycle).2.loraIntSem =
      env.xSemaphoreCreateBinary := by
  have hcheck : ¬ (build = .REGION_US915 ∧
      (dataRate = env.DR_5 ∨ dataRate = env.DR_6 ∨ dataRate = env.DR_7)) := by
    simpa only [initCallsTaskLoad, Bool.not_eq_true', decide_eq_false_iff_not] using hcall
  unfold LoRaWAN_Node.init
  rw [if_neg hcheck]
  dsimp only
  split_ifs <;> simp only [setSubBand_loraIntSem, taskLoad_loraIntSem]

/-- The semaphore `DFRobot_LoRaRadio::init` leaves in `loraIntSem` is the one created by its
`lorataskLoad`. -/
theorem radio_init_loraIntSem (env : Env) (s : RadioState) :
    (DFRobot_LoRaRadio.init env s).loraIntSem = env.xSemaphoreCreateBinary := by
  unfold DFRobot_LoRaRadio.init
  exact lorataskLoad_loraIntSem env s

/-- C22, as stated, fails: with the MAC path initialised first (the RTOS creating semaphore 1
and the worker `loraTask`) and the raw radio path second (semaphore 2 and the worker
`loraRadioTask`), both workers end up blocked on semaphore 2, whether `loraTask` begins its
wait only after both initialisations or was already waiting on semaphore 1, was woken, and
begins its next wait after the second initialisation. -/
theorem workers_share_loraIntSem :
    (tasks0.run (scheduleNodeThenRadio .REGION_EU868 envOk envSecond 0 16 false
      false)).loraTaskState = .waiting (some 2) ∧
    (tasks0.run (scheduleNodeThenRadio .REGION_EU868 envOk envSecond 0 16 false
      false)).loraRadioTaskState = .waiting (some 2) ∧
    (tasks0.run
      [.LoRaWAN_Node_init .REGION_EU868 envOk 0 16 false false, .loraTask_take]).loraTaskState
        = .waiting (some 1) ∧
    (tasks0.run
      [.LoRaWAN_Node_init .REGION_EU868 envOk 0 16 false false, .loraTask_take,
       .loraTask_wake, .DFRobot_LoRaRadio_init envSecond, .loraTask_take,
       .loraRadioTask_take]).loraTaskState = .waiting (some 2) ∧
    (tasks0.run
      [.LoRaWAN_Node_init .REGION_EU868 envOk 0 16 false false, .loraTask_take,
       .loraTask_wake, .DFRobot_LoRaRadio_init envSecond, .loraTask_take,
       .loraRadioTask_take]).loraRadioTaskState = .waiting (some 2) := by
  refine ⟨?_, ?_, ?_, ?_, ?_⟩ <;> decide

/-- C22, amended: the two workers have their own processing steps (`LmHandlerProcess`,
`Radio2.BgIrqProcess`) but no signal of their own; each wait is on the semaphore that the one
variable `loraIntSem` holds when the wait begins, and each initialisation overwrites it.  With
both workers created: waits of the two workers begun after both initialisations are on the same
semaphore, the one created by the later initialisation, in either order; a worker that began
its wait between the two initialisations is blocked on the semaphore of the earlier one while
the other worker waits on that of the later one; and once woken, its next wait is on the
semaphore of the later initialisation too. -/
theorem workers_wait_on_loraIntSem (build : Build) (envNode envRadio : Env) (t : Tasks)
    (dataRate txEirp : Int) (adr dutyCycle : Bool)
    (hcall : initCallsTaskLoad build envNode dataRate = true)
    (hn : envNode.xTaskCreate.2 ≠ none) (hr : envRadio.xTaskCreate.2 ≠ none) :
    ((t.run (scheduleNodeThenRadio build envNode envRadio dataRate txEirp adr
        dutyCycle)).loraTaskState = .waiting envRadio.xSemaphoreCreateBinary ∧
      (t.run (scheduleNodeThenRadio build envNode envRadio dataRate txEirp adr
        dutyCycle)).loraRadioTaskState = .waiting envRadio.xSemaphoreCreateBinary) ∧
    ((t.run (scheduleRadioThenNode build envNode envRadio dataRate txEirp adr
        dutyCycle)).loraTaskState = .waiting envNode.xSemaphoreCreateBinary ∧
      (t.run (scheduleRadioThenNode build envNode envRadio dataRate txEirp adr
        dutyCycle)).loraRadioTaskState = .waiting envNode.xSemaphoreCreateBinary) ∧
    ((t.run (scheduleNodeWaitsFirst build envNode envRadio dataRate txEirp adr
        dutyCycle)).loraTaskState = .waiting envNode.xSemaphoreCreateBinary ∧
      (t.run (scheduleNodeWaitsFirst build envNode envRadio dataRate txEirp adr
        dutyCycle)).loraRadioTaskState = .waiting envRadio.xSemaphoreCreateBinary ∧
      (t.run (scheduleNodeWaitsFirst build envNode envRadio dataRate txEirp adr dutyCycle ++
        [.loraTask_wake, .loraTask_take])).loraTaskState =
          .waiting envRadio.xSemaphoreCreateBinary) ∧
    ((t.run (scheduleRadioWaitsFirst build envNode envRadio dataRate txEirp adr
        dutyCycle)).loraRadioTaskState = .waiting envRadio.xSemaphoreCreateBinary ∧
      (t.run (scheduleRadioWaitsFirst build envNode envRadio dataRate txEirp adr
        dutyCycle)).loraTaskState = .waiting envNode.xSemaphoreCreateBinary ∧
      (t.run (scheduleRadioWaitsFirst build envNode envRadio dataRate txEirp adr dutyCycle ++
        [.loraRadioTask_wake, .loraRadioTask_take])).loraRadioTaskState =
          .waiting envNode.xSemaphoreCreateBinary) ∧
    (loraTask t.program.node).process = .LmHandlerProcess ∧
    (loraRadioTask t.program.radio).process = .Radio2_BgIrqProcess := by
  have hc : (initCallsTaskLoad build envNode dataRate = true ∧ envNode.xTaskCreate.2 ≠ none) :=
    ⟨hcall, hn⟩
  refine ⟨⟨?_, ?_⟩, ⟨?_, ?_⟩, ⟨?_, ?_, ?_⟩, ⟨?_, ?_, ?_⟩, rfl, rfl⟩ <;>
    simp [Tasks.run, Tasks.step, scheduleNodeThenRadio, scheduleRadioThenNode,
      scheduleNodeWaitsFirst, scheduleRadioWaitsFirst, hc, hr, loraTask, loraRadioTask,
      Program.LoRaWAN_Node_init, Program.DFRobot_LoRaRadio_init, Program.afterNode,
      Program.afterRadio, init_loraIntSem _ _ _ _ _ _ _ hcall, radio_init_loraIntSem]

/-- C22, amended, on `tasks0` with the RTOS creating semaphore 1 for the MAC path and
semaphore 2 for the raw radio path. -/
theorem workers_wait_on_loraIntSem_witness :
    ((tasks0.run (scheduleNodeThenRadio .REGION_EU868 envOk envSecond 0 16 false
        false)).loraTaskState = .waiting envSecond.xSemaphoreCreateBinary ∧
      (tasks0.run (scheduleNodeThenRadio .REGION_EU868 envOk envSecond 0 16 false
        false)).loraRadioTaskState = .waiting envSecond.xSemaphoreCreateBinary) ∧
    ((tasks0.run (scheduleRadioThenNode .REGION_EU868 envOk envSecond 0 16 false
        false)).loraTaskState = .waiting envOk.xSemaphoreCreateBinary ∧
      (tasks0.run (scheduleRadioThenNode .REGION_EU868 envOk envSecond 0 16 false
        false)).loraRadioTaskState = .waiting envOk.xSemaphoreCreateBinary) ∧
    ((tasks0.run (scheduleNodeWaitsFirst .REGION_EU868 envOk envSecond 0 16 false
        false)).loraTaskState = .waiting envOk.xSemaphoreCreateBinary ∧
      (tasks0.run (scheduleNodeWaitsFirst .REGION_EU868 envOk envSecond 0 16 false
        false)).loraRadioTaskState = .waiting envSecond.xSemaphoreCreateBinary ∧
      (tasks0.run (scheduleNodeWaitsFirst .REGION_EU868 envOk envSecond 0 16 false false ++
        [.loraTask_wake, .loraTask_take])).loraTaskState =
          .waiting envSecond.xSemaphoreCreateBinary) ∧
    ((tasks0.run (scheduleRadioWaitsFirst .REGION_EU868 envOk envSecond 0 16 false
        false)).loraRadioTaskState = .waiting envSecond.xSemaphoreCreateBinary ∧
      (tasks0.run (scheduleRadioWaitsFirst .REGION_EU868 envOk envSecond 0 16 false
        false)).loraTaskState = .waiting envOk.xSemaphoreCreateBinary ∧
      (tasks0.run (scheduleRadioWaitsFirst .REGION_EU868 envOk envSecond 0 16 false false ++
        [.loraRadioTask_wake, .loraRadioTask_take])).loraRadioTaskState =
          .waiting envOk.xSemaphoreCreateBinary) ∧
    (loraTask tasks0.program.node).process = .LmHandlerProcess ∧
    (loraRadioTask tasks0.program.radio).process = .Radio2_BgIrqProcess :=
  workers_wait_on_loraIntSem .REGION_EU868 envOk envSecond tasks0 0 16 false false
    (by decide) (by decide) (by decide)

end DFRobot_LoRaWAN
